import Mathlib

/-!
# Control component: estop state machine and command synthesis

A shallow embedding of `modules/control/control_component.cc`.

* C++ `double` values are modelled as rationals (`ℚ`); the code only compares,
  subtracts, multiplies and assigns them.
* The member variables of `ControlComponent` become the fields of a record that is
  passed through every member function explicitly.
* `Clock::NowInSeconds()` becomes an explicit argument for each reading.
* The controller agent is a parameter: an arbitrary state type with a `Reset` and a
  `ComputeControlCommand` operation.  Every use of it is recorded in a call log so that
  "the algorithm is (not) invoked" can be stated.
* Logging statements and the mutex have no counterpart; callbacks and cycles are
  interleaved at the granularity of whole functions.
-/

namespace Control

/-! ## Message types -/

/-- Modelled from the spec: the error codes of `apollo::common::ErrorCode` (declared outside
this file); only `OK` and `CONTROL_COMPUTE_ERROR` are named by the code. -/
inductive ErrorCode
  | OK
  | CONTROL_COMPUTE_ERROR
  | OTHER (code : Nat)
deriving DecidableEq

/-- Modelled from the spec: `apollo::common::Status` (declared outside this file), an error
code with a message. -/
structure Status where
  code : ErrorCode
  msg : String
deriving DecidableEq

/-- The value of `Status::OK()`. -/
def Status.OK : Status := { code := ErrorCode.OK, msg := "" }

/-- The test `status.ok()`. -/
def Status.ok (s : Status) : Bool := decide (s.code = ErrorCode.OK)

/-- The accessor `status.error_message()`. -/
def Status.error_message (s : Status) : String := s.msg

/-- Modelled from the spec: the protobuf `StatusPb` carried in a message header. -/
structure StatusPb where
  error_code : ErrorCode := ErrorCode.OK
  msg : String := ""
deriving DecidableEq

/-- Modelled from the spec: `Status::Save`, which stores code and message into a `StatusPb`. -/
def Status.Save (s : Status) (_pb : StatusPb) : StatusPb :=
  { error_code := s.code, msg := s.msg }

/-- Modelled from the spec: the protobuf `Header`, with the fields this file reads or writes. -/
structure Header where
  timestamp_sec : ℚ := 0
  module_name : String := ""
  lidar_timestamp : Nat := 0
  camera_timestamp : Nat := 0
  radar_timestamp : Nat := 0
  status : StatusPb := {}
deriving DecidableEq

/-- Modelled from the spec: `Chassis::DrivingMode`. -/
inductive DrivingMode
  | COMPLETE_MANUAL
  | COMPLETE_AUTO_DRIVE
  | AUTO_STEER_ONLY
  | AUTO_SPEED_ONLY
  | EMERGENCY_MODE
deriving DecidableEq

/-- Modelled from the spec: `Chassis::GearPosition`. -/
inductive GearPosition
  | GEAR_NEUTRAL
  | GEAR_DRIVE
  | GEAR_REVERSE
  | GEAR_PARKING
  | GEAR_LOW
  | GEAR_INVALID
  | GEAR_NONE
deriving DecidableEq

/-- Modelled from the spec: the `Chassis` message; a fresh message is in `COMPLETE_MANUAL`
with a zero timestamp. -/
structure Chassis where
  header : Header := {}
  driving_mode : DrivingMode := DrivingMode.COMPLETE_MANUAL
  speed_mps : ℚ := 0
deriving DecidableEq

/-- Modelled from the spec: the `LocalizationEstimate` message. -/
structure LocalizationEstimate where
  header : Header := {}
  measurement_time : ℚ := 0
deriving DecidableEq

/-- Modelled from the spec: a `TrajectoryPoint` with velocity `v` and acceleration `a`. -/
structure TrajectoryPoint where
  v : ℚ := 0
  a : ℚ := 0
  relative_time : ℚ := 0
deriving DecidableEq

/-- Modelled from the spec: the `EStop` sub-message of a trajectory. -/
structure EStop where
  is_estop : Bool := false
  reason : String := ""
deriving DecidableEq

/-- Modelled from the spec: the `VehicleSignal` directive. -/
structure VehicleSignal where
  turn_signal : Nat := 0
  emergency_light : Bool := false
deriving DecidableEq

/-- Modelled from the spec: the `DecisionResult` sub-message; `vehicle_signal` is optional. -/
structure DecisionResult where
  vehicle_signal : Option VehicleSignal := none
deriving DecidableEq

/-- Modelled from the spec: the `ADCTrajectory` message. -/
structure ADCTrajectory where
  header : Header := {}
  trajectory_point : List TrajectoryPoint := []
  estop : EStop := {}
  decision : DecisionResult := {}
deriving DecidableEq

/-- Modelled from the spec: `DrivingAction`, whose first value is `STOP`. -/
inductive DrivingAction
  | STOP
  | START
  | RESET
deriving DecidableEq

/-- Modelled from the spec: the `PadMessage`; `action` is an optional field. -/
structure PadMessage where
  header : Header := {}
  action? : Option DrivingAction := none
deriving DecidableEq

/-- The getter `pad.action()`: the stored action, or the first enum value if unset. -/
def PadMessage.action (p : PadMessage) : DrivingAction := p.action?.getD DrivingAction.STOP

/-- The setter `pad.set_action(a)`. -/
def PadMessage.set_action (p : PadMessage) (a : DrivingAction) : PadMessage :=
  { p with action? := some a }

/-- Modelled from the spec: `EngageAdvice::Advice`. -/
inductive Advice
  | UNKNOWN
  | DISALLOW_ENGAGE
  | READY_TO_ENGAGE
  | KEEP_ENGAGED
  | PREPARE_DISENGAGE
deriving DecidableEq

/-- Modelled from the spec: the `EngageAdvice` message. -/
structure EngageAdvice where
  advice : Advice := Advice.UNKNOWN
  reason : String := ""
deriving DecidableEq

/-- Modelled from the spec: `debug.input_debug` of a command, three optional headers. -/
structure InputDebug where
  localization_header : Option Header := none
  canbus_header : Option Header := none
  trajectory_header : Option Header := none
deriving DecidableEq

/-- Modelled from the spec: the `LatencyStats` message. -/
structure LatencyStats where
  total_time_ms : ℚ := 0
  total_time_exceeded : Bool := false
deriving DecidableEq

/-- Modelled from the spec: the `ControlCommand` message. -/
structure ControlCommand where
  header : Header := {}
  throttle : ℚ := 0
  brake : ℚ := 0
  speed : ℚ := 0
  gear_location : GearPosition := GearPosition.GEAR_NEUTRAL
  engage_advice : EngageAdvice := {}
  input_debug : InputDebug := {}
  signal : Option VehicleSignal := none
  pad_msg : Option PadMessage := none
  latency_stats : LatencyStats := {}
deriving DecidableEq

/-- Modelled from the spec: a `MonitorMessageItem` log level. -/
inductive LogLevel
  | INFO
  | WARN
  | ERROR
  | FATAL
deriving DecidableEq

/-- Modelled from the spec: a `MonitorMessage` is a list of items, each with a log level. -/
structure MonitorMessage where
  item : List LogLevel := []
deriving DecidableEq

/-- Modelled from the spec: the `ControlConf` configuration message, with the options this
file reads. -/
structure ControlConf where
  chassis_channel : String := ""
  localization_channel : String := ""
  planning_channel : String := ""
  pad_msg_channel : String := ""
  control_command_channel : String := ""
  action : DrivingAction := DrivingAction.STOP
  enable_persistent_estop : Bool := false
  soft_estop_brake : ℚ := 0
  is_control_test_mode : Bool := false
  control_test_duration : ℚ := 0
  control_period : ℚ := 0
  minimum_speed_resolution : ℚ := 0
  enable_input_timestamp_check : Bool := false
  max_localization_miss_num : ℤ := 0
  localization_period : ℚ := 0
  max_chassis_miss_num : ℤ := 0
  chassis_period : ℚ := 0
  max_planning_miss_num : ℤ := 0
  trajectory_period : ℚ := 0
deriving DecidableEq

/-- Modelled from the spec: a reader handle returned by `CreateReader`, known by its channel. -/
structure Reader where
  channel_name : String
deriving DecidableEq

/-! ## The controller agent and the component state -/

/-- Modelled from the spec: the controller agent (`controller_agent_`, defined outside this
file), a stateful capability with a reset and a compute operation.  The compute operation
reads the three inputs and may rewrite the command it is handed. -/
structure ControllerAgent (A : Type) where
  Reset : A → A
  ComputeControlCommand :
    A → LocalizationEstimate → Chassis → ADCTrajectory → ControlCommand →
      Status × ControlCommand × A

/-- One use of the controller agent: a reset, or a compute call with the command it was
handed, the status it returned and the command it left. -/
inductive AgentCall
  | Reset
  | ComputeControlCommand (input : ControlCommand) (status : Status) (output : ControlCommand)
deriving DecidableEq

/-- Modelled from the spec: the transport node (`node_`), known here by its name. -/
structure Node where
  Name : String := ""
deriving DecidableEq

/-- The member variables of `ControlComponent`. -/
structure ControlComponent (A : Type) where
  node_ : Node := {}
  control_conf_ : ControlConf := {}
  controller_agent_ : A
  chassis_reader_ : Option Reader := none
  trajectory_reader_ : Option Reader := none
  localization_reader_ : Option Reader := none
  pad_msg_reader_ : Option Reader := none
  chassis_ : Chassis := {}
  localization_ : LocalizationEstimate := {}
  trajectory_ : ADCTrajectory := {}
  pad_msg_ : PadMessage := {}
  pad_received_ : Bool := false
  estop_ : Bool := false
  estop_reason_ : String := ""
  init_time_ : ℚ := 0

variable {A : Type}

/-! ## Delivery callbacks (the handlers registered in `Init`, lines 68-97) -/

/-- The chassis handler: `chassis_.CopyFrom(*chassis)`. -/
def chassisCallback (self : ControlComponent A) (chassis : Chassis) : ControlComponent A :=
  { self with chassis_ := chassis }

/-- The trajectory handler: `trajectory_.CopyFrom(*trajectory)`. -/
def trajectoryCallback (self : ControlComponent A) (trajectory : ADCTrajectory) :
    ControlComponent A :=
  { self with trajectory_ := trajectory }

/-- The localization handler: `localization_.CopyFrom(*localization)`. -/
def localizationCallback (self : ControlComponent A) (localization : LocalizationEstimate) :
    ControlComponent A :=
  { self with localization_ := localization }

/-- The function `ControlComponent::OnPad` (lines 105-117). -/
def OnPad (self : ControlComponent A) (pad : PadMessage) : ControlComponent A :=
  let s1 := { self with pad_msg_ := pad }
  let s2 :=
    if s1.pad_msg_.action = DrivingAction.RESET then
      { s1 with estop_ := false, estop_reason_ := "" }
    else s1
  { s2 with pad_received_ := true }

/-- The function `ControlComponent::OnMonitor` (lines 119-127). -/
def OnMonitor (self : ControlComponent A) (monitor_message : MonitorMessage) :
    ControlComponent A :=
  if monitor_message.item.any (fun lvl => decide (lvl = LogLevel.FATAL)) then
    { self with estop_ := true }
  else self

/-! ## The checkers -/

/-- The body of the loop at lines 292-297, applied to one trajectory point. -/
def clampPoint (control_conf : ControlConf) (trajectory_point : TrajectoryPoint) :
    TrajectoryPoint :=
  if trajectory_point.v < control_conf.minimum_speed_resolution then
    { trajectory_point with v := 0, a := 0 }
  else trajectory_point

/-- The function `ControlComponent::CheckInput` (lines 268-302): the returned status and the
component afterwards.  The update of the vehicle-state singleton has no effect on the
component and is not represented. -/
def CheckInput (self : ControlComponent A) : Status × ControlComponent A :=
  if self.localization_reader_.isNone then
    ({ code := ErrorCode.CONTROL_COMPUTE_ERROR, msg := "No localization msg" }, self)
  else if self.chassis_reader_.isNone then
    ({ code := ErrorCode.CONTROL_COMPUTE_ERROR, msg := "No chassis msg" }, self)
  else if self.trajectory_reader_.isNone then
    ({ code := ErrorCode.CONTROL_COMPUTE_ERROR, msg := "No planning msg" }, self)
  else if (!self.trajectory_.estop.is_estop
      && decide (self.trajectory_.trajectory_point.length = 0)) then
    ({ code := ErrorCode.CONTROL_COMPUTE_ERROR, msg := "planning has no trajectory point." },
      self)
  else
    (Status.OK,
      { self with
        trajectory_ :=
          { self.trajectory_ with
            trajectory_point :=
              self.trajectory_.trajectory_point.map (clampPoint self.control_conf_) } })

/-- The function `ControlComponent::CheckTimestamp` (lines 304-343); `current_timestamp` is
the clock reading taken at line 310. -/
def CheckTimestamp (self : ControlComponent A) (current_timestamp : ℚ) : Status :=
  if (!self.control_conf_.enable_input_timestamp_check
      || self.control_conf_.is_control_test_mode) then
    Status.OK
  else
    let localization_diff := current_timestamp - self.localization_.header.timestamp_sec
    if localization_diff >
        (self.control_conf_.max_localization_miss_num : ℚ)
          * self.control_conf_.localization_period then
      { code := ErrorCode.CONTROL_COMPUTE_ERROR, msg := "Localization msg timeout" }
    else
      let chassis_diff := current_timestamp - self.chassis_.header.timestamp_sec
      if chassis_diff >
          (self.control_conf_.max_chassis_miss_num : ℚ) * self.control_conf_.chassis_period then
        { code := ErrorCode.CONTROL_COMPUTE_ERROR, msg := "Chassis msg timeout" }
      else
        let trajectory_diff := current_timestamp - self.trajectory_.header.timestamp_sec
        if trajectory_diff >
            (self.control_conf_.max_planning_miss_num : ℚ)
              * self.control_conf_.trajectory_period then
          { code := ErrorCode.CONTROL_COMPUTE_ERROR, msg := "Trajectory msg timeout" }
        else Status.OK

/-! ## `ProduceControlCommand` -/

/-- The data that `ProduceControlCommand` carries from one block to the next: the local
`status`, the command behind the `control_command` pointer, the component, and the log of
controller-agent calls made so far. -/
structure Produced (A : Type) where
  status : Status
  control_command : ControlCommand
  self : ControlComponent A
  calls : List AgentCall

/-- The block "check data" of `ProduceControlCommand` (lines 131-160). -/
def checkData (current_timestamp : ℚ) (self : ControlComponent A)
    (control_command : ControlCommand) : Produced A :=
  let chk := CheckInput self
  let status := chk.1
  let s1 := chk.2
  if !status.ok then
    { status := status
      control_command :=
        { control_command with
          engage_advice :=
            { advice := Advice.DISALLOW_ENGAGE, reason := status.error_message } }
      self := { s1 with estop_ := true, estop_reason_ := status.error_message }
      calls := [] }
  else
    let status_ts := CheckTimestamp s1 current_timestamp
    if !status_ts.ok then
      { status := status_ts
        control_command :=
          if s1.chassis_.driving_mode ≠ DrivingMode.COMPLETE_AUTO_DRIVE then
            { control_command with
              engage_advice :=
                { advice := Advice.DISALLOW_ENGAGE, reason := status_ts.error_message } }
          else control_command
        self := s1
        calls := [] }
    else
      { status := status
        control_command :=
          { control_command with
            engage_advice :=
              { control_command.engage_advice with advice := Advice.READY_TO_ENGAGE } }
        self := s1
        calls := [] }

/-- The block "check estop" of `ProduceControlCommand` (lines 162-169). -/
def checkEstop (f : Produced A) : Produced A :=
  let s := f.self
  let s1 :=
    { s with
      estop_ :=
        if s.control_conf_.enable_persistent_estop then
          s.estop_ || s.trajectory_.estop.is_estop
        else s.trajectory_.estop.is_estop }
  let s2 :=
    if s1.trajectory_.estop.is_estop then { s1 with estop_reason_ := "estop from planning" }
    else s1
  { f with self := s2 }

/-- Lines 173-176: the controller agent as it enters the compute call, reset first when the
chassis is in `COMPLETE_MANUAL`. -/
def resetInManual (ag : ControllerAgent A) (s : ControlComponent A) : A :=
  if s.chassis_.driving_mode = DrivingMode.COMPLETE_MANUAL then ag.Reset s.controller_agent_
  else s.controller_agent_

/-- Lines 178-181: the command with the three input headers copied into its debug part. -/
def fillInputDebug (s : ControlComponent A) (control_command : ControlCommand) :
    ControlCommand :=
  { control_command with
    input_debug :=
      { localization_header := some s.localization_.header
        canbus_header := some s.chassis_.header
        trajectory_header := some s.trajectory_.header } }

/-- Lines 183-184: the call `controller_agent_.ComputeControlCommand(...)`, returning the
status, the command left behind the pointer and the agent afterwards. -/
def callCompute (ag : ControllerAgent A) (f : Produced A) : Status × ControlCommand × A :=
  ag.ComputeControlCommand (resetInManual ag f.self) f.self.localization_ f.self.chassis_
    f.self.trajectory_ (fillInputDebug f.self f.control_command)

/-- The block guarded by `if (!estop_)` of `ProduceControlCommand` (lines 171-197). -/
def controlProcess (ag : ControllerAgent A) (f : Produced A) : Produced A :=
  let s := f.self
  if !s.estop_ then
    let calls1 :=
      if s.chassis_.driving_mode = DrivingMode.COMPLETE_MANUAL then f.calls ++ [AgentCall.Reset]
      else f.calls
    let out := callCompute ag f
    let status_compute := out.1
    let cmd2 := out.2.1
    let s1 := { s with controller_agent_ := out.2.2 }
    let calls2 :=
      calls1 ++
        [AgentCall.ComputeControlCommand (fillInputDebug s f.control_command) status_compute cmd2]
    if !status_compute.ok then
      { status := status_compute
        control_command := cmd2
        self := { s1 with estop_ := true, estop_reason_ := status_compute.error_message }
        calls := calls2 }
    else
      { status := f.status, control_command := cmd2, self := s1, calls := calls2 }
  else f

/-- The block "set Estop command" of `ProduceControlCommand` (lines 199-206). -/
def setEstopCommand (f : Produced A) : Produced A :=
  if f.self.estop_ then
    { f with
      control_command :=
        { f.control_command with
          speed := 0
          throttle := 0
          brake := f.self.control_conf_.soft_estop_brake
          gear_location := GearPosition.GEAR_DRIVE } }
  else f

/-- The block "check signal" of `ProduceControlCommand` (lines 207-211). -/
def checkSignal (f : Produced A) : Produced A :=
  match f.self.trajectory_.decision.vehicle_signal with
  | some sig => { f with control_command := { f.control_command with signal := some sig } }
  | none => f

/-- The function `ControlComponent::ProduceControlCommand` (lines 129-213): its blocks in
source order.  The result holds the returned status, the command left behind the pointer,
the component afterwards and the controller-agent calls made. -/
def ProduceControlCommand (ag : ControllerAgent A) (current_timestamp : ℚ)
    (self : ControlComponent A) (control_command : ControlCommand) : Produced A :=
  checkSignal (setEstopCommand (controlProcess ag
    (checkEstop (checkData current_timestamp self control_command))))

/-! ## `SendCmd` and `Proc` -/

/-- The readings of `Clock::NowInSeconds()` during one call of `Proc`, in the order they are
taken: line 229, line 310 (inside `CheckTimestamp`), line 244, and the send time used when
the header is filled. -/
structure CycleClock where
  start_timestamp : ℚ
  current_timestamp : ℚ
  end_timestamp : ℚ
  send_timestamp : ℚ
deriving DecidableEq

/-- Modelled from the spec: `common::util::FillHeader`, which stamps the transport-level
header (source name, send time). -/
def FillHeader (module_name : String) (send_timestamp : ℚ) (control_command : ControlCommand) :
    ControlCommand :=
  { control_command with
    header :=
      { control_command.header with
        module_name := module_name, timestamp_sec := send_timestamp } }

/-- The function `ControlComponent::SendCmd` (lines 345-363): the command as it is left
behind the reference, and the command written to the output channel, if any. -/
def SendCmd (self : ControlComponent A) (send_timestamp : ℚ) (control_command : ControlCommand) :
    ControlCommand × Option ControlCommand :=
  let cmd1 : ControlCommand :=
    { control_command with
      header :=
        { control_command.header with
          lidar_timestamp := self.trajectory_.header.lidar_timestamp
          camera_timestamp := self.trajectory_.header.camera_timestamp
          radar_timestamp := self.trajectory_.header.radar_timestamp } }
  let cmd2 := FillHeader self.node_.Name send_timestamp cmd1
  if self.control_conf_.is_control_test_mode then (cmd2, none) else (cmd2, some cmd2)

/-- The outcome of one call of `Proc`: the returned flag, the component afterwards, the
command handed to `SendCmd` (absent if `Proc` returned before building one), the command
written to the output channel, and the controller-agent calls made. -/
structure ProcResult (A : Type) where
  ret : Bool
  self : ControlComponent A
  control_command : Option ControlCommand
  written : Option ControlCommand
  calls : List AgentCall

/-- The function `ControlComponent::Proc` (lines 215-266). -/
def Proc (ag : ControllerAgent A) (clock : CycleClock) (self : ControlComponent A) :
    ProcResult A :=
  let s0 := { self with pad_msg_ := self.pad_msg_.set_action self.control_conf_.action }
  let start_timestamp := clock.start_timestamp
  if (s0.control_conf_.is_control_test_mode
      && decide (s0.control_conf_.control_test_duration > 0)
      && decide (start_timestamp - s0.init_time_ > s0.control_conf_.control_test_duration)) then
    { ret := false, self := s0, control_command := none, written := none, calls := [] }
  else
    let p := ProduceControlCommand ag clock.current_timestamp s0 {}
    let end_timestamp := clock.end_timestamp
    let s1 := p.self
    let cmd1 : ControlCommand :=
      if s1.pad_received_ then { p.control_command with pad_msg := some s1.pad_msg_ }
      else p.control_command
    let s2 := if s1.pad_received_ then { s1 with pad_received_ := false } else s1
    let time_diff_ms := (end_timestamp - start_timestamp) * 1000
    let cmd2 : ControlCommand :=
      { cmd1 with
        latency_stats :=
          { total_time_ms := time_diff_ms
            total_time_exceeded := decide (time_diff_ms < s2.control_conf_.control_period) } }
    let cmd3 : ControlCommand :=
      { cmd2 with header := { cmd2.header with status := p.status.Save cmd2.header.status } }
    let cmd4 : ControlCommand :=
      if s2.estop_ then
        { cmd3 with
          header := { cmd3.header with status := { cmd3.header.status with msg := s2.estop_reason_ } } }
      else cmd3
    let sent := SendCmd s2 clock.send_timestamp cmd4
    { ret := true, self := s2, control_command := some cmd4, written := sent.2, calls := p.calls }

/-! ## Sequences of callbacks and cycles -/

/-- What can happen to the component: a delivery on one of the input channels, a monitor
message, or one cycle of `Proc`. -/
inductive Event
  | chassis (msg : Chassis)
  | trajectory (msg : ADCTrajectory)
  | localization (msg : LocalizationEstimate)
  | pad (msg : PadMessage)
  | monitor (msg : MonitorMessage)
  | proc (clock : CycleClock)
deriving DecidableEq

/-- Whether an event is the delivery of a pad message whose action is `RESET`. -/
def Event.isReset : Event → Bool
  | Event.pad msg => decide (msg.action = DrivingAction.RESET)
  | _ => false

/-- The component after one event. -/
def step (ag : ControllerAgent A) (self : ControlComponent A) : Event → ControlComponent A
  | Event.chassis msg => chassisCallback self msg
  | Event.trajectory msg => trajectoryCallback self msg
  | Event.localization msg => localizationCallback self msg
  | Event.pad msg => OnPad self msg
  | Event.monitor msg => OnMonitor self msg
  | Event.proc clock => (Proc ag clock self).self

/-- The component after a sequence of events, oldest first. -/
def run (ag : ControllerAgent A) (self : ControlComponent A) (events : List Event) :
    ControlComponent A :=
  events.foldl (step ag) self

/-! ## Concrete inputs -/

/-- A controller agent that counts its compute calls, returns the given status and writes the
motion values 5, 20, 0 and `GEAR_LOW`. -/
def sampleAgent (status : Status) : ControllerAgent Nat where
  Reset := fun _ => 0
  ComputeControlCommand := fun n _ _ _ cmd =>
    (status,
      { cmd with speed := 5, throttle := 20, brake := 0, gear_location := GearPosition.GEAR_LOW },
      n + 1)

/-- A failure status as a controller could report it. -/
def sampleFailure : Status := { code := ErrorCode.OTHER 7, msg := "lon controller failed" }

/-- A configuration with the persistent estop disabled and timestamp checking off. -/
def sampleConf : ControlConf :=
  { chassis_channel := "chassis", localization_channel := "localization",
    pad_msg_channel := "pad", control_command_channel := "control",
    soft_estop_brake := 50, minimum_speed_resolution := 1 / 100, control_period := 10 }

/-- A component after start-up with all three inputs delivered: automatic driving mode, a
trajectory of two points without a stop request, estop inactive. -/
def sampleComponent : ControlComponent Nat :=
  { controller_agent_ := 0
    control_conf_ := sampleConf
    chassis_reader_ := some { channel_name := "chassis" }
    trajectory_reader_ := some { channel_name := "chassis" }
    localization_reader_ := some { channel_name := "localization" }
    pad_msg_reader_ := some { channel_name := "pad" }
    chassis_ := { driving_mode := DrivingMode.COMPLETE_AUTO_DRIVE }
    trajectory_ := { trajectory_point := [{ v := 5, a := 1 }, { v := 1 / 1000, a := 1 / 2 }] } }

/-- The component after start-up when no trajectory has been delivered yet: the trajectory
field still holds the empty message. -/
def startupComponent : ControlComponent Nat :=
  { sampleComponent with trajectory_ := {} }

/-- The component after start-up when localization and trajectory have been delivered but no
chassis message ever has: the chassis field still holds the empty message. -/
def noChassisComponent : ControlComponent Nat :=
  { sampleComponent with chassis_ := {} }

/-- A component whose localization reader was never created. -/
def noReaderComponent : ControlComponent Nat :=
  { sampleComponent with localization_reader_ := none }

/-- A component with the persistent estop enabled and the estop flag already set. -/
def persistentComponent : ControlComponent Nat :=
  { sampleComponent with
    control_conf_ := { sampleConf with enable_persistent_estop := true }
    estop_ := true
    estop_reason_ := "lon controller failed" }

/-- A component whose trajectory carries a stop request. -/
def stopComponent : ControlComponent Nat :=
  { sampleComponent with
    trajectory_ := { sampleComponent.trajectory_ with estop := { is_estop := true } }
    estop_reason_ := "lon controller failed" }

/-- The command handed to the controller agent in a cycle on `sampleComponent` that starts
from an empty command: engage advice `READY_TO_ENGAGE` and the three (empty) input headers. -/
def sampleInput : ControlCommand :=
  { engage_advice := { advice := Advice.READY_TO_ENGAGE }
    input_debug :=
      { localization_header := some {}, canbus_header := some {}, trajectory_header := some {} } }

/-- The command `sampleAgent` leaves when handed `sampleInput`. -/
def sampleOutput : ControlCommand :=
  { sampleInput with speed := 5, throttle := 20, brake := 0, gear_location := GearPosition.GEAR_LOW }

/-- A pad message with action `RESET`. -/
def resetPad : PadMessage := { action? := some DrivingAction.RESET }

/-- A pad message with action `START`. -/
def startPad : PadMessage := { action? := some DrivingAction.START }

/-- Clock readings of a cycle that starts at 100 s and takes 5 ms. -/
def sampleClock : CycleClock :=
  { start_timestamp := 100, current_timestamp := 100, end_timestamp := 100 + 1 / 200,
    send_timestamp := 101 }

/-! ## `Init` -/

/-- The four handlers that `Init` hands to `CreateReader`, in source order: the lambdas at
lines 70, 78, 86 and 94. -/
inductive Handler
  | chassis
  | trajectory
  | localization
  | pad
deriving DecidableEq

/-- One call of `node_->CreateReader`: the channel name passed and the handler passed. -/
structure Registration where
  channel_name : String
  handler : Handler
deriving DecidableEq

/-- The outcome of `Init`: the returned flag, the component afterwards and the `CreateReader`
calls made, in order. -/
structure InitResult (A : Type) where
  ret : Bool
  self : ControlComponent A
  registered : List Registration

/-- The function `ControlComponent::Init` (lines 43-103). `conf_file` is what
`GetProtoFromFile` reads, `none` when it fails, in which case the `CHECK` at line 51 ends the
process and there is no result. `agent_Init` is `controller_agent_.Init`. Every `CreateReader`
call is taken to return a reader for the channel it was given; the writer handle is not
used by the functions modelled here and is not represented. -/
def Init (agent_Init : A → ControlConf → Status × A) (conf_file : Option ControlConf)
    (self : ControlComponent A) : Option (InitResult A) :=
  match conf_file with
  | none => none
  | some conf =>
    let s1 := { self with control_conf_ := conf }
    let agent := agent_Init s1.controller_agent_ s1.control_conf_
    let s2 := { s1 with controller_agent_ := agent.2 }
    if !agent.1.ok then
      some { ret := false, self := s2, registered := [] }
    else
      let s3 :=
        { s2 with chassis_reader_ := some { channel_name := s2.control_conf_.chassis_channel } }
      let s4 :=
        { s3 with
          trajectory_reader_ := some { channel_name := s3.control_conf_.chassis_channel } }
      let s5 :=
        { s4 with
          localization_reader_ :=
            some { channel_name := s4.control_conf_.localization_channel } }
      let s6 :=
        { s5 with pad_msg_reader_ := some { channel_name := s5.control_conf_.pad_msg_channel } }
      some
        { ret := true
          self := s6
          registered :=
            [{ channel_name := s2.control_conf_.chassis_channel, handler := Handler.chassis },
             { channel_name := s3.control_conf_.chassis_channel, handler := Handler.trajectory },
             { channel_name := s4.control_conf_.localization_channel,
               handler := Handler.localization },
             { channel_name := s5.control_conf_.pad_msg_channel, handler := Handler.pad }] }

/-! ## Named parts of `Proc` and of the staleness rule -/

/-- Line 227 of `Proc`: the component after `pad_msg_.set_action(control_conf_.action())`. -/
def setPadAction (self : ControlComponent A) : ControlComponent A :=
  { self with pad_msg_ := self.pad_msg_.set_action self.control_conf_.action }

/-- Lines 231-233 of `Proc`: the test that ends a test run. -/
def testFinished (clock : CycleClock) (self : ControlComponent A) : Bool :=
  self.control_conf_.is_control_test_mode
    && decide (self.control_conf_.control_test_duration > 0)
    && decide (clock.start_timestamp - self.init_time_ > self.control_conf_.control_test_duration)

/-- Lines 238-240 of `Proc`: `ProduceControlCommand` called on a fresh command. -/
def procProduce (ag : ControllerAgent A) (clock : CycleClock) (self : ControlComponent A) :
    Produced A :=
  ProduceControlCommand ag clock.current_timestamp (setPadAction self) {}

/-- The staleness rule in the words of the specification: a stream is stale if
`now − header.timestamp > miss_threshold × nominal_period`. -/
def stale (now timestamp : ℚ) (miss_threshold : ℤ) (nominal_period : ℚ) : Bool :=
  decide (now - timestamp > (miss_threshold : ℚ) * nominal_period)

/-- Staleness of the localization stream under its own threshold and period. -/
def localizationStale (self : ControlComponent A) (now : ℚ) : Bool :=
  stale now self.localization_.header.timestamp_sec self.control_conf_.max_localization_miss_num
    self.control_conf_.localization_period

/-- Staleness of the chassis stream under its own threshold and period. -/
def chassisStale (self : ControlComponent A) (now : ℚ) : Bool :=
  stale now self.chassis_.header.timestamp_sec self.control_conf_.max_chassis_miss_num
    self.control_conf_.chassis_period

/-- Staleness of the trajectory stream under its own threshold and period. -/
def trajectoryStale (self : ControlComponent A) (now : ℚ) : Bool :=
  stale now self.trajectory_.header.timestamp_sec self.control_conf_.max_planning_miss_num
    self.control_conf_.trajectory_period

/-! ## More concrete inputs -/

/-- A configuration with five pairwise distinct channel names. -/
def channelConf : ControlConf :=
  { sampleConf with planning_channel := "planning" }

/-- A component before `Init`: no readers, empty snapshot. -/
def freshComponent : ControlComponent Nat :=
  { controller_agent_ := 0 }

/-- A controller-agent initialisation that succeeds. -/
def sampleAgentInit : Nat → ControlConf → Status × Nat :=
  fun n _ => (Status.OK, n)

/-- A component in test mode with test duration 5 s whose reference time `init_time_` has the
given value. -/
def testComponent (init_time : ℚ) : ControlComponent Nat :=
  { sampleComponent with
    control_conf_ := { sampleConf with is_control_test_mode := true, control_test_duration := 5 }
    init_time_ := init_time }

/-- Clock readings of a cycle that starts at the given time. -/
def clockAt (start : ℚ) : CycleClock :=
  { start_timestamp := start, current_timestamp := start, end_timestamp := start,
    send_timestamp := start }

/-- A component with timestamp checking on, budgets 1/5 s (localization), 1/5 s (chassis) and
2 s (trajectory), manual driving mode, and headers stamped at 100 s (localization), 99 s
(chassis) and 98 s (trajectory). -/
def timedComponent : ControlComponent Nat :=
  { sampleComponent with
    control_conf_ :=
      { sampleConf with
        enable_input_timestamp_check := true
        max_localization_miss_num := 20, localization_period := 1 / 100
        max_chassis_miss_num := 20, chassis_period := 1 / 100
        max_planning_miss_num := 20, trajectory_period := 1 / 10 }
    localization_ := { header := { timestamp_sec := 100 } }
    chassis_ := { header := { timestamp_sec := 99 } }
    trajectory_ :=
      { header := { timestamp_sec := 98 }
        trajectory_point := [{ v := 5, a := 1 }, { v := 1 / 1000, a := 1 / 2 }] } }

/-- A component whose trajectory carries a stop request and has no points. -/
def stopNoPointsComponent : ControlComponent Nat :=
  { sampleComponent with trajectory_ := { estop := { is_estop := true } } }

/-! ## Frame lemmas for the checkers -/

theorem CheckInput_frame (s : ControlComponent A) :
    (CheckInput s).2.control_conf_ = s.control_conf_ ∧
    (CheckInput s).2.estop_ = s.estop_ ∧
    (CheckInput s).2.estop_reason_ = s.estop_reason_ ∧
    (CheckInput s).2.chassis_ = s.chassis_ ∧
    (CheckInput s).2.localization_ = s.localization_ ∧
    (CheckInput s).2.controller_agent_ = s.controller_agent_ ∧
    (CheckInput s).2.trajectory_.estop = s.trajectory_.estop ∧
    (CheckInput s).2.trajectory_.decision = s.trajectory_.decision ∧
    (CheckInput s).2.trajectory_.header = s.trajectory_.header ∧
    (CheckInput s).2.pad_msg_ = s.pad_msg_ ∧
    (CheckInput s).2.pad_received_ = s.pad_received_ := by
  unfold CheckInput
  split_ifs <;> simp

/-! ## The blocks of `ProduceControlCommand`, field by field -/

theorem checkData_fields (now : ℚ) (s : ControlComponent A) (cmd : ControlCommand) :
    (checkData now s cmd).self.control_conf_ = s.control_conf_ ∧
    (checkData now s cmd).self.trajectory_ = (CheckInput s).2.trajectory_ ∧
    (checkData now s cmd).self.chassis_ = s.chassis_ ∧
    (checkData now s cmd).self.localization_ = s.localization_ ∧
    (checkData now s cmd).self.controller_agent_ = s.controller_agent_ ∧
    (checkData now s cmd).calls = [] ∧
    (checkData now s cmd).self.estop_ = (s.estop_ || !(CheckInput s).1.ok) ∧
    (checkData now s cmd).self.estop_reason_ =
      (if (CheckInput s).1.ok then s.estop_reason_ else (CheckInput s).1.msg) ∧
    (checkData now s cmd).status =
      (if (CheckInput s).1.ok ∧ (CheckTimestamp (CheckInput s).2 now).ok then (CheckInput s).1
       else if (CheckInput s).1.ok then CheckTimestamp (CheckInput s).2 now
       else (CheckInput s).1) ∧
    (checkData now s cmd).control_command.engage_advice =
      (if (CheckInput s).1.ok ∧ (CheckTimestamp (CheckInput s).2 now).ok then
         { cmd.engage_advice with advice := Advice.READY_TO_ENGAGE }
       else if (CheckInput s).1.ok then
         (if s.chassis_.driving_mode ≠ DrivingMode.COMPLETE_AUTO_DRIVE then
            { advice := Advice.DISALLOW_ENGAGE,
              reason := (CheckTimestamp (CheckInput s).2 now).msg }
          else cmd.engage_advice)
       else { advice := Advice.DISALLOW_ENGAGE, reason := (CheckInput s).1.msg }) := by
  have h1 := CheckInput_frame s
  simp only [checkData, Status.error_message]
  split_ifs <;> simp_all

theorem checkEstop_fields (f : Produced A) :
    (checkEstop f).status = f.status ∧
    (checkEstop f).control_command = f.control_command ∧
    (checkEstop f).calls = f.calls ∧
    (checkEstop f).self.control_conf_ = f.self.control_conf_ ∧
    (checkEstop f).self.trajectory_ = f.self.trajectory_ ∧
    (checkEstop f).self.chassis_ = f.self.chassis_ ∧
    (checkEstop f).self.localization_ = f.self.localization_ ∧
    (checkEstop f).self.controller_agent_ = f.self.controller_agent_ ∧
    (checkEstop f).self.estop_ =
      (if f.self.control_conf_.enable_persistent_estop then
         f.self.estop_ || f.self.trajectory_.estop.is_estop
       else f.self.trajectory_.estop.is_estop) ∧
    (checkEstop f).self.estop_reason_ =
      (if f.self.trajectory_.estop.is_estop then "estop from planning"
       else f.self.estop_reason_) := by
  simp only [checkEstop]
  split_ifs <;> simp_all

theorem controlProcess_estopped (ag : ControllerAgent A) (f : Produced A)
    (h : f.self.estop_ = true) : controlProcess ag f = f := by
  simp [controlProcess, h]

theorem controlProcess_running (ag : ControllerAgent A) (f : Produced A)
    (h : f.self.estop_ = false) :
    (controlProcess ag f).calls =
      (if f.self.chassis_.driving_mode = DrivingMode.COMPLETE_MANUAL then
         f.calls ++ [AgentCall.Reset]
       else f.calls) ++
        [AgentCall.ComputeControlCommand (fillInputDebug f.self f.control_command)
          (callCompute ag f).1 (callCompute ag f).2.1] ∧
    (controlProcess ag f).control_command = (callCompute ag f).2.1 ∧
    (controlProcess ag f).self.estop_ = !(callCompute ag f).1.ok ∧
    (controlProcess ag f).status =
      (if (callCompute ag f).1.ok then f.status else (callCompute ag f).1) ∧
    (controlProcess ag f).self.estop_reason_ =
      (if (callCompute ag f).1.ok then f.self.estop_reason_ else (callCompute ag f).1.msg) ∧
    (controlProcess ag f).self.control_conf_ = f.self.control_conf_ ∧
    (controlProcess ag f).self.trajectory_ = f.self.trajectory_ ∧
    (controlProcess ag f).self.chassis_ = f.self.chassis_ := by
  simp only [controlProcess, h, Status.error_message]
  split_ifs <;> simp_all

theorem setEstopCommand_fields (f : Produced A) :
    (setEstopCommand f).status = f.status ∧
    (setEstopCommand f).self = f.self ∧
    (setEstopCommand f).calls = f.calls ∧
    (setEstopCommand f).control_command.engage_advice = f.control_command.engage_advice ∧
    (setEstopCommand f).control_command.speed =
      (if f.self.estop_ then 0 else f.control_command.speed) ∧
    (setEstopCommand f).control_command.throttle =
      (if f.self.estop_ then 0 else f.control_command.throttle) ∧
    (setEstopCommand f).control_command.brake =
      (if f.self.estop_ then f.self.control_conf_.soft_estop_brake
       else f.control_command.brake) ∧
    (setEstopCommand f).control_command.gear_location =
      (if f.self.estop_ then GearPosition.GEAR_DRIVE else f.control_command.gear_location) := by
  simp only [setEstopCommand]
  split_ifs <;> simp

theorem checkSignal_fields (f : Produced A) :
    (checkSignal f).status = f.status ∧
    (checkSignal f).self = f.self ∧
    (checkSignal f).calls = f.calls ∧
    (checkSignal f).control_command.engage_advice = f.control_command.engage_advice ∧
    (checkSignal f).control_command.speed = f.control_command.speed ∧
    (checkSignal f).control_command.throttle = f.control_command.throttle ∧
    (checkSignal f).control_command.brake = f.control_command.brake ∧
    (checkSignal f).control_command.gear_location = f.control_command.gear_location := by
  simp only [checkSignal]
  split <;> simp

/-! ## `ProduceControlCommand` as a whole -/

theorem checked_estop (now : ℚ) (s : ControlComponent A) (cmd : ControlCommand) :
    (checkEstop (checkData now s cmd)).self.estop_ =
      (if s.control_conf_.enable_persistent_estop then
         (s.estop_ || !(CheckInput s).1.ok) || s.trajectory_.estop.is_estop
       else s.trajectory_.estop.is_estop) := by
  obtain ⟨h1, h2, -, -, -, -, h7, -⟩ := checkData_fields now s cmd
  obtain ⟨-, -, -, -, -, -, g1, -⟩ := CheckInput_frame s
  obtain ⟨-, -, -, -, -, -, -, -, k9, -⟩ := checkEstop_fields (checkData now s cmd)
  rw [k9, h1, h2, h7, g1]

theorem checked_reason (now : ℚ) (s : ControlComponent A) (cmd : ControlCommand) :
    (checkEstop (checkData now s cmd)).self.estop_reason_ =
      (if s.trajectory_.estop.is_estop then "estop from planning"
       else if (CheckInput s).1.ok then s.estop_reason_ else (CheckInput s).1.msg) := by
  obtain ⟨-, h2, -, -, -, -, -, h8, -⟩ := checkData_fields now s cmd
  obtain ⟨-, -, -, -, -, -, g1, -⟩ := CheckInput_frame s
  obtain ⟨-, -, -, -, -, -, -, -, -, k10⟩ := checkEstop_fields (checkData now s cmd)
  rw [k10, h2, h8, g1]

theorem checked_frame (now : ℚ) (s : ControlComponent A) (cmd : ControlCommand) :
    (checkEstop (checkData now s cmd)).self.control_conf_ = s.control_conf_ ∧
    (checkEstop (checkData now s cmd)).self.chassis_ = s.chassis_ ∧
    (checkEstop (checkData now s cmd)).self.trajectory_ = (CheckInput s).2.trajectory_ ∧
    (checkEstop (checkData now s cmd)).calls = [] ∧
    (checkEstop (checkData now s cmd)).status = (checkData now s cmd).status ∧
    (checkEstop (checkData now s cmd)).control_command = (checkData now s cmd).control_command := by
  obtain ⟨h1, h2, h3, -, -, h6, -⟩ := checkData_fields now s cmd
  obtain ⟨k1, k2, k3, k4, k5, k6, -⟩ := checkEstop_fields (checkData now s cmd)
  exact ⟨k4.trans h1, k6.trans h3, k5.trans h2, k3.trans h6, k1, k2⟩

/-- When the flag is set after the block "check estop", the controller agent is not used and
the command gets the fail-safe values. -/
theorem Produce_estopped (ag : ControllerAgent A) (now : ℚ) (s : ControlComponent A)
    (cmd : ControlCommand) (h : (checkEstop (checkData now s cmd)).self.estop_ = true) :
    (ProduceControlCommand ag now s cmd).calls = [] ∧
    (ProduceControlCommand ag now s cmd).self = (checkEstop (checkData now s cmd)).self ∧
    (ProduceControlCommand ag now s cmd).status = (checkData now s cmd).status ∧
    (ProduceControlCommand ag now s cmd).control_command.engage_advice =
      (checkData now s cmd).control_command.engage_advice ∧
    (ProduceControlCommand ag now s cmd).control_command.speed = 0 ∧
    (ProduceControlCommand ag now s cmd).control_command.throttle = 0 ∧
    (ProduceControlCommand ag now s cmd).control_command.brake =
      s.control_conf_.soft_estop_brake ∧
    (ProduceControlCommand ag now s cmd).control_command.gear_location =
      GearPosition.GEAR_DRIVE := by
  obtain ⟨c1, -, -, c4, c5, c6⟩ := checked_frame now s cmd
  have hp := controlProcess_estopped ag _ h
  obtain ⟨e1, e2, e3, e4, e5, e6, e7, e8⟩ :=
    setEstopCommand_fields (controlProcess ag (checkEstop (checkData now s cmd)))
  obtain ⟨g1, g2, g3, g4, g5, g6, g7, g8⟩ :=
    checkSignal_fields (setEstopCommand (controlProcess ag (checkEstop (checkData now s cmd))))
  rw [hp] at e1 e2 e3 e4 e5 e6 e7 e8 g1 g2 g3 g4 g5 g6 g7 g8
  simp only [h, if_true] at e5 e6 e7 e8
  unfold ProduceControlCommand
  rw [hp]
  refine ⟨g3.trans (e3.trans c4), g2.trans e2, g1.trans (e1.trans c5), ?_, g5.trans e5,
    g6.trans e6, ?_, g8.trans e8⟩
  · rw [g4, e4, c6]
  · rw [g7, e7, c1]

/-- When the flag is clear after the block "check estop", the controller agent is called once
and the outcome of that call decides flag, reason, status and motion values. -/
theorem Produce_running (ag : ControllerAgent A) (now : ℚ) (s : ControlComponent A)
    (cmd : ControlCommand) (h : (checkEstop (checkData now s cmd)).self.estop_ = false) :
    (ProduceControlCommand ag now s cmd).calls =
      (if s.chassis_.driving_mode = DrivingMode.COMPLETE_MANUAL then [AgentCall.Reset]
       else []) ++
        [AgentCall.ComputeControlCommand
          (fillInputDebug (checkEstop (checkData now s cmd)).self
            (checkData now s cmd).control_command)
          (callCompute ag (checkEstop (checkData now s cmd))).1
          (callCompute ag (checkEstop (checkData now s cmd))).2.1] ∧
    (ProduceControlCommand ag now s cmd).self.estop_ =
      !(callCompute ag (checkEstop (checkData now s cmd))).1.ok ∧
    (ProduceControlCommand ag now s cmd).self.estop_reason_ =
      (if (callCompute ag (checkEstop (checkData now s cmd))).1.ok then
         (checkEstop (checkData now s cmd)).self.estop_reason_
       else (callCompute ag (checkEstop (checkData now s cmd))).1.msg) ∧
    (ProduceControlCommand ag now s cmd).status =
      (if (callCompute ag (checkEstop (checkData now s cmd))).1.ok then
         (checkData now s cmd).status
       else (callCompute ag (checkEstop (checkData now s cmd))).1) ∧
    (ProduceControlCommand ag now s cmd).control_command.engage_advice =
      (callCompute ag (checkEstop (checkData now s cmd))).2.1.engage_advice ∧
    (ProduceControlCommand ag now s cmd).control_command.speed =
      (if (callCompute ag (checkEstop (checkData now s cmd))).1.ok then
         (callCompute ag (checkEstop (checkData now s cmd))).2.1.speed else 0) ∧
    (ProduceControlCommand ag now s cmd).control_command.throttle =
      (if (callCompute ag (checkEstop (checkData now s cmd))).1.ok then
         (callCompute ag (checkEstop (checkData now s cmd))).2.1.throttle else 0) ∧
    (ProduceControlCommand ag now s cmd).control_command.brake =
      (if (callCompute ag (checkEstop (checkData now s cmd))).1.ok then
         (callCompute ag (checkEstop (checkData now s cmd))).2.1.brake
       else s.control_conf_.soft_estop_brake) ∧
    (ProduceControlCommand ag now s cmd).control_command.gear_location =
      (if (callCompute ag (checkEstop (checkData now s cmd))).1.ok then
         (callCompute ag (checkEstop (checkData now s cmd))).2.1.gear_location
       else GearPosition.GEAR_DRIVE) ∧
    (ProduceControlCommand ag now s cmd).self.control_conf_ = s.control_conf_ ∧
    (ProduceControlCommand ag now s cmd).self.trajectory_ = (CheckInput s).2.trajectory_ := by
  obtain ⟨c1, c2, c3, c4, c5, c6⟩ := checked_frame now s cmd
  obtain ⟨p1, p2, p3, p4, p5, p6, p7, p8⟩ := controlProcess_running ag _ h
  obtain ⟨e1, e2, e3, e4, e5, e6, e7, e8⟩ :=
    setEstopCommand_fields (controlProcess ag (checkEstop (checkData now s cmd)))
  obtain ⟨g1, g2, g3, g4, g5, g6, g7, g8⟩ :=
    checkSignal_fields (setEstopCommand (controlProcess ag (checkEstop (checkData now s cmd))))
  unfold ProduceControlCommand
  rw [g1, g2, g3, g4, g5, g6, g7, g8, e1, e2, e3, e4, e5, e6, e7, e8, p1, p2, p3, p4, p5, p6, p7,
    c1, c2, c3, c4, c5, c6]
  refine ⟨by simp, rfl, rfl, rfl, rfl, ?_, ?_, ?_, ?_, rfl, rfl⟩ <;>
    cases (callCompute ag (checkEstop (checkData now s cmd))).1.ok <;> simp

theorem Produce_conf (ag : ControllerAgent A) (now : ℚ) (s : ControlComponent A)
    (cmd : ControlCommand) :
    (ProduceControlCommand ag now s cmd).self.control_conf_ = s.control_conf_ := by
  cases h : (checkEstop (checkData now s cmd)).self.estop_
  · exact (Produce_running ag now s cmd h).2.2.2.2.2.2.2.2.2.1
  · rw [(Produce_estopped ag now s cmd h).2.1]
    exact (checked_frame now s cmd).1

theorem Produce_stop_flag (ag : ControllerAgent A) (now : ℚ) (s : ControlComponent A)
    (cmd : ControlCommand) :
    (ProduceControlCommand ag now s cmd).self.trajectory_.estop = s.trajectory_.estop := by
  obtain ⟨-, -, -, -, -, -, g1, -⟩ := CheckInput_frame s
  cases h : (checkEstop (checkData now s cmd)).self.estop_
  · rw [(Produce_running ag now s cmd h).2.2.2.2.2.2.2.2.2.2, g1]
  · rw [(Produce_estopped ag now s cmd h).2.1, (checked_frame now s cmd).2.2.1, g1]

theorem Produce_keeps_estop (ag : ControllerAgent A) (now : ℚ) (s : ControlComponent A)
    (cmd : ControlCommand) (hp : s.control_conf_.enable_persistent_estop = true)
    (he : s.estop_ = true) : (ProduceControlCommand ag now s cmd).self.estop_ = true := by
  have h : (checkEstop (checkData now s cmd)).self.estop_ = true := by
    rw [checked_estop]; simp [hp, he]
  rw [(Produce_estopped ag now s cmd h).2.1, h]

/-- The running case of `ProduceControlCommand` in terms of the one compute call it logs:
the command handed to the controller agent `cin`, the status returned `st` and the command
left `out`. -/
theorem Produce_running_call (ag : ControllerAgent A) (now : ℚ) (s : ControlComponent A)
    (cmd : ControlCommand) (h : (checkEstop (checkData now s cmd)).self.estop_ = false) :
    ∃ (cin : ControlCommand) (st : Status) (out : ControlCommand),
      (∀ cin2 st2 out2,
        AgentCall.ComputeControlCommand cin2 st2 out2 ∈
            (ProduceControlCommand ag now s cmd).calls ↔
          (cin2 = cin ∧ st2 = st ∧ out2 = out)) ∧
      (ProduceControlCommand ag now s cmd).calls =
        (if s.chassis_.driving_mode = DrivingMode.COMPLETE_MANUAL then [AgentCall.Reset]
         else []) ++ [AgentCall.ComputeControlCommand cin st out] ∧
      cin.engage_advice = (checkData now s cmd).control_command.engage_advice ∧
      (ProduceControlCommand ag now s cmd).self.estop_ = !st.ok ∧
      (ProduceControlCommand ag now s cmd).self.estop_reason_ =
        (if st.ok then (checkEstop (checkData now s cmd)).self.estop_reason_ else st.msg) ∧
      (ProduceControlCommand ag now s cmd).status =
        (if st.ok then (checkData now s cmd).status else st) ∧
      (ProduceControlCommand ag now s cmd).control_command.engage_advice = out.engage_advice ∧
      (ProduceControlCommand ag now s cmd).control_command.speed =
        (if st.ok then out.speed else 0) ∧
      (ProduceControlCommand ag now s cmd).control_command.throttle =
        (if st.ok then out.throttle else 0) ∧
      (ProduceControlCommand ag now s cmd).control_command.brake =
        (if st.ok then out.brake else s.control_conf_.soft_estop_brake) ∧
      (ProduceControlCommand ag now s cmd).control_command.gear_location =
        (if st.ok then out.gear_location else GearPosition.GEAR_DRIVE) := by
  obtain ⟨h1, h2, h3, h4, h5, h6, h7, h8, h9, -⟩ := Produce_running ag now s cmd h
  refine ⟨fillInputDebug (checkEstop (checkData now s cmd)).self
      (checkData now s cmd).control_command,
    (callCompute ag (checkEstop (checkData now s cmd))).1,
    (callCompute ag (checkEstop (checkData now s cmd))).2.1,
    ?_, h1, rfl, h2, h3, h4, h5, h6, h7, h8, h9⟩
  intro cin2 st2 out2
  rw [h1]
  split_ifs <;> simp

/-- Every compute call in the log of a cycle is a call of the controller agent: the logged
status and command are what the agent returned for the logged input command. -/
theorem logged_call_is_agent_call (ag : ControllerAgent A) (now : ℚ) (s : ControlComponent A)
    (cmd cin out : ControlCommand) (st : Status)
    (h : AgentCall.ComputeControlCommand cin st out ∈
      (ProduceControlCommand ag now s cmd).calls) :
    ∃ a l c t, (ag.ComputeControlCommand a l c t cin).1 = st ∧
      (ag.ComputeControlCommand a l c t cin).2.1 = out := by
  cases hpre : (checkEstop (checkData now s cmd)).self.estop_
  · obtain ⟨h1, -⟩ := Produce_running ag now s cmd hpre
    rw [h1] at h
    have hcases : ∀ l : List AgentCall, (l = [AgentCall.Reset] ∨ l = []) →
        AgentCall.ComputeControlCommand cin st out ∈
          l ++ [AgentCall.ComputeControlCommand
            (fillInputDebug (checkEstop (checkData now s cmd)).self
              (checkData now s cmd).control_command)
            (callCompute ag (checkEstop (checkData now s cmd))).1
            (callCompute ag (checkEstop (checkData now s cmd))).2.1] →
        cin = fillInputDebug (checkEstop (checkData now s cmd)).self
              (checkData now s cmd).control_command ∧
        st = (callCompute ag (checkEstop (checkData now s cmd))).1 ∧
        out = (callCompute ag (checkEstop (checkData now s cmd))).2.1 := by
      rintro l (rfl | rfl) hm <;> simpa using hm
    obtain ⟨e1, e2, e3⟩ := hcases _ (by split_ifs <;> simp) h
    refine ⟨resetInManual ag (checkEstop (checkData now s cmd)).self,
      (checkEstop (checkData now s cmd)).self.localization_,
      (checkEstop (checkData now s cmd)).self.chassis_,
      (checkEstop (checkData now s cmd)).self.trajectory_, ?_, ?_⟩
    · rw [e1, e2]; unfold callCompute; rw [(checked_frame now s cmd).2.2.2.2.2]
    · rw [e1, e3]; unfold callCompute; rw [(checked_frame now s cmd).2.2.2.2.2]
  · rw [(Produce_estopped ag now s cmd hpre).1] at h
    exact absurd h (List.not_mem_nil _)

theorem CheckInput_ok_eq (s : ControlComponent A) (h : (CheckInput s).1.ok = true) :
    (CheckInput s).1 = Status.OK := by
  revert h
  unfold CheckInput
  split_ifs <;> simp [Status.ok]

theorem Proc_conf (ag : ControllerAgent A) (clock : CycleClock) (s : ControlComponent A) :
    (Proc ag clock s).self.control_conf_ = s.control_conf_ := by
  simp only [Proc]
  split_ifs <;> first | rfl | exact Produce_conf ag _ _ _

theorem Proc_keeps_estop (ag : ControllerAgent A) (clock : CycleClock) (s : ControlComponent A)
    (hp : s.control_conf_.enable_persistent_estop = true) (he : s.estop_ = true) :
    (Proc ag clock s).self.estop_ = true := by
  simp only [Proc]
  split_ifs <;> first | exact he | exact Produce_keeps_estop ag _ _ _ hp he

theorem step_keeps_estop (ag : ControllerAgent A) (s : ControlComponent A) (e : Event)
    (hr : e.isReset = false) (hp : s.control_conf_.enable_persistent_estop = true)
    (he : s.estop_ = true) :
    (step ag s e).control_conf_.enable_persistent_estop = true ∧ (step ag s e).estop_ = true := by
  cases e with
  | chassis msg => exact ⟨hp, he⟩
  | trajectory msg => exact ⟨hp, he⟩
  | localization msg => exact ⟨hp, he⟩
  | pad msg =>
    have hne : msg.action ≠ DrivingAction.RESET := by simpa [Event.isReset] using hr
    simp [step, OnPad, hne, hp, he]
  | monitor msg =>
    simp only [step, OnMonitor]
    split_ifs <;> simp [hp, he]
  | proc clock =>
    exact ⟨by simp only [step]; rw [Proc_conf]; exact hp, Proc_keeps_estop ag clock s hp he⟩

theorem run_keeps_estop (ag : ControllerAgent A) (events : List Event) :
    ∀ s : ControlComponent A, (∀ e ∈ events, e.isReset = false) →
      s.control_conf_.enable_persistent_estop = true → s.estop_ = true →
      (run ag s events).estop_ = true := by
  induction events with
  | nil => intro s _ _ he; exact he
  | cons e rest ih =>
    intro s hr hp he
    obtain ⟨hp1, he1⟩ := step_keeps_estop ag s e (hr e (List.mem_cons_self e rest)) hp he
    exact ih (step ag s e) (fun x hx => hr x (List.mem_cons_of_mem e hx)) hp1 he1

/-! ## The claims -/

/-- C1 (defect in the code). With the persistent estop disabled, a cycle whose `CheckInput`
fails does not leave the fail-safe command: on the start-up component that has not received a
trajectory yet, `CheckInput` fails, the flag set at line 141 is overwritten at line 163, the
controller agent runs, and the command carries the agent's values 5, 20, 0 and `GEAR_LOW`. -/
theorem failed_CheckInput_without_persistence_runs_agent :
    startupComponent.control_conf_.enable_persistent_estop = false ∧
    (CheckInput startupComponent).1 =
      { code := ErrorCode.CONTROL_COMPUTE_ERROR, msg := "planning has no trajectory point." } ∧
    (ProduceControlCommand (sampleAgent Status.OK) 0 startupComponent {}).control_command.speed
      = 5 ∧
    (ProduceControlCommand (sampleAgent Status.OK) 0 startupComponent {}).control_command.throttle
      = 20 ∧
    (ProduceControlCommand (sampleAgent Status.OK) 0 startupComponent {}).control_command.brake
      = 0 ∧
    (ProduceControlCommand (sampleAgent Status.OK) 0
      startupComponent {}).control_command.gear_location = GearPosition.GEAR_LOW ∧
    startupComponent.control_conf_.soft_estop_brake = 50 ∧
    (ProduceControlCommand (sampleAgent Status.OK) 0 startupComponent {}).self.estop_ = false ∧
    (ProduceControlCommand (sampleAgent Status.OK) 0 startupComponent {}).calls.length = 1 := by
  decide

/-- With the persistent estop enabled, a cycle whose `CheckInput` fails does leave the
fail-safe command, whatever the earlier state and the controller agent. -/
theorem failed_CheckInput_with_persistence_is_failsafe (ag : ControllerAgent A) (now : ℚ)
    (s : ControlComponent A) (cmd : ControlCommand)
    (hp : s.control_conf_.enable_persistent_estop = true)
    (hfail : (CheckInput s).1.ok = false) :
    (ProduceControlCommand ag now s cmd).control_command.speed = 0 ∧
    (ProduceControlCommand ag now s cmd).control_command.throttle = 0 ∧
    (ProduceControlCommand ag now s cmd).control_command.brake =
      s.control_conf_.soft_estop_brake ∧
    (ProduceControlCommand ag now s cmd).control_command.gear_location =
      GearPosition.GEAR_DRIVE := by
  have h : (checkEstop (checkData now s cmd)).self.estop_ = true := by
    rw [checked_estop]; simp [hp, hfail]
  obtain ⟨-, -, -, -, h5, h6, h7, h8⟩ := Produce_estopped ag now s cmd h
  exact ⟨h5, h6, h7, h8⟩

/-- C2. If the trajectory carries a stop request, then for every configuration, earlier state
and controller agent: the agent is not used at all, the command has speed 0, throttle 0, brake
`soft_estop_brake` and gear `GEAR_DRIVE`, the estop flag is set at the end of the cycle, and
the estop reason is "estop from planning". -/
theorem stop_request_gives_failsafe (ag : ControllerAgent A) (now : ℚ)
    (s : ControlComponent A) (cmd : ControlCommand)
    (hstop : s.trajectory_.estop.is_estop = true) :
    (ProduceControlCommand ag now s cmd).calls = [] ∧
    (ProduceControlCommand ag now s cmd).control_command.speed = 0 ∧
    (ProduceControlCommand ag now s cmd).control_command.throttle = 0 ∧
    (ProduceControlCommand ag now s cmd).control_command.brake =
      s.control_conf_.soft_estop_brake ∧
    (ProduceControlCommand ag now s cmd).control_command.gear_location =
      GearPosition.GEAR_DRIVE ∧
    (ProduceControlCommand ag now s cmd).self.estop_ = true ∧
    (ProduceControlCommand ag now s cmd).self.estop_reason_ = "estop from planning" := by
  have h : (checkEstop (checkData now s cmd)).self.estop_ = true := by
    rw [checked_estop]; simp [hstop]
  obtain ⟨h1, h2, -, -, h5, h6, h7, h8⟩ := Produce_estopped ag now s cmd h
  refine ⟨h1, h5, h6, h7, h8, ?_, ?_⟩
  · rw [h2, h]
  · rw [h2, checked_reason]; simp [hstop]

/-- C2, instance: the component with a stop request, an earlier reason and a controller agent
that would succeed. -/
theorem stop_request_gives_failsafe_witness :
    stopComponent.trajectory_.estop.is_estop = true ∧
    stopComponent.estop_reason_ = "lon controller failed" ∧
    (ProduceControlCommand (sampleAgent Status.OK) 0 stopComponent {}).calls = [] ∧
    (ProduceControlCommand (sampleAgent Status.OK) 0 stopComponent {}).control_command.speed
      = 0 ∧
    (ProduceControlCommand (sampleAgent Status.OK) 0 stopComponent {}).control_command.brake
      = 50 ∧
    (ProduceControlCommand (sampleAgent Status.OK) 0 stopComponent {}).self.estop_reason_ =
      "estop from planning" :=
  have h := stop_request_gives_failsafe (sampleAgent Status.OK) 0 stopComponent {} (by decide)
  ⟨by decide, by decide, h.1, h.2.1, h.2.2.2.1, h.2.2.2.2.2.2⟩

/-- C3 (defect in the code). `CheckInput` tests whether the reader handles exist, not whether
a message was delivered: on the component whose chassis field is still the empty start-up
message, `CheckInput` returns OK, `ProduceControlCommand` returns OK, the engage advice is
`READY_TO_ENGAGE` and the estop flag is clear at the end of the cycle. -/
theorem never_delivered_chassis_passes_CheckInput :
    noChassisComponent.chassis_ = {} ∧
    noChassisComponent.chassis_reader_ ≠ none ∧
    (CheckInput noChassisComponent).1 = Status.OK ∧
    (ProduceControlCommand (sampleAgent Status.OK) 0 noChassisComponent {}).status = Status.OK ∧
    (ProduceControlCommand (sampleAgent Status.OK) 0
      noChassisComponent {}).control_command.engage_advice.advice = Advice.READY_TO_ENGAGE ∧
    (ProduceControlCommand (sampleAgent Status.OK) 0 noChassisComponent {}).self.estop_
      = false := by
  decide

/-- C4. With the persistent estop enabled, an estop flag that is set at the start of a cycle
is set at the end of `ProduceControlCommand`, for every clock reading, command, snapshot and
controller agent; and it stays set over any sequence of deliveries, monitor messages and
cycles of `Proc` that contains no pad message with action `RESET`. -/
theorem persistent_estop_stays_active (ag : ControllerAgent A) (s : ControlComponent A)
    (hp : s.control_conf_.enable_persistent_estop = true) (he : s.estop_ = true) :
    (∀ (now : ℚ) (cmd : ControlCommand), (ProduceControlCommand ag now s cmd).self.estop_ = true) ∧
    (∀ events : List Event, (∀ e ∈ events, e.isReset = false) →
      (run ag s events).estop_ = true) :=
  ⟨fun now cmd => Produce_keeps_estop ag now s cmd hp he,
    fun events hr => run_keeps_estop ag events s hr hp he⟩

/-- C4, instance: estop set, then a fresh trajectory without stop request, a `START` pad
message and two cycles with a succeeding controller agent. -/
theorem persistent_estop_stays_active_witness :
    persistentComponent.estop_ = true ∧
    (ProduceControlCommand (sampleAgent Status.OK) 0 persistentComponent {}).self.estop_
      = true ∧
    (run (sampleAgent Status.OK) persistentComponent
      [Event.trajectory sampleComponent.trajectory_, Event.proc sampleClock,
        Event.pad startPad, Event.proc sampleClock]).estop_ = true :=
  have h := persistent_estop_stays_active (sampleAgent Status.OK) persistentComponent
    (by decide) (by decide)
  ⟨by decide, h.1 0 {}, h.2 _ (by decide)⟩

/-- C5 (counterexample). Persistent estop disabled, both checks pass, the trajectory carries
no stop request, and the controller agent reports a failure: the estop flag is set at the end
of the cycle although the stop-request flag is clear. -/
theorem estop_set_without_stop_request :
    sampleComponent.control_conf_.enable_persistent_estop = false ∧
    (CheckInput sampleComponent).1 = Status.OK ∧
    (ProduceControlCommand (sampleAgent sampleFailure) 0
      sampleComponent {}).self.trajectory_.estop.is_estop = false ∧
    (ProduceControlCommand (sampleAgent sampleFailure) 0 sampleComponent {}).self.estop_
      = true := by
  decide

/-- C5 (amended). With the persistent estop disabled, the stop-request flag of the trajectory
is the same before and after the cycle, and at the end of the cycle the estop flag is set
exactly when that flag is set or the controller agent was called in the cycle and reported a
failure; this holds for every earlier value of the estop flag and every outcome of the
checks. -/
theorem estop_without_persistence (ag : ControllerAgent A) (now : ℚ)
    (s : ControlComponent A) (cmd : ControlCommand)
    (hp : s.control_conf_.enable_persistent_estop = false) :
    (ProduceControlCommand ag now s cmd).self.trajectory_.estop.is_estop =
      s.trajectory_.estop.is_estop ∧
    ((ProduceControlCommand ag now s cmd).self.estop_ = true ↔
      (s.trajectory_.estop.is_estop = true ∨
        ∃ cin st out,
          AgentCall.ComputeControlCommand cin st out ∈
            (ProduceControlCommand ag now s cmd).calls ∧ st.ok = false)) := by
  refine ⟨by rw [Produce_stop_flag], ?_⟩
  have hpre := checked_estop now s cmd
  simp only [hp, Bool.false_eq_true, if_false] at hpre
  cases hstop : s.trajectory_.estop.is_estop
  · rw [hstop] at hpre
    obtain ⟨cin, st, out, hmem, -, -, he, -⟩ := Produce_running_call ag now s cmd hpre
    rw [he]
    constructor
    · intro hst
      exact Or.inr ⟨cin, st, out, (hmem cin st out).2 ⟨rfl, rfl, rfl⟩, by simpa using hst⟩
    · rintro (hc | ⟨cin2, st2, out2, hm, hst⟩)
      · exact absurd hc (by simp)
      · obtain ⟨-, rfl, -⟩ := (hmem cin2 st2 out2).1 hm
        simp [hst]
  · rw [hstop] at hpre
    obtain ⟨-, h2, -⟩ := Produce_estopped ag now s cmd hpre
    rw [h2, hpre]
    simp

/-- C5 (amended), instance: the counterexample cycle, where the controller agent fails. -/
theorem estop_without_persistence_witness :
    sampleComponent.control_conf_.enable_persistent_estop = false ∧
    ((ProduceControlCommand (sampleAgent sampleFailure) 0 sampleComponent {}).self.estop_
        = true ↔
      (sampleComponent.trajectory_.estop.is_estop = true ∨
        ∃ cin st out,
          AgentCall.ComputeControlCommand cin st out ∈
            (ProduceControlCommand (sampleAgent sampleFailure) 0 sampleComponent {}).calls ∧
          st.ok = false)) :=
  ⟨by decide,
    (estop_without_persistence (sampleAgent sampleFailure) 0 sampleComponent {} (by decide)).2⟩

/-- C6. `OnPad` with action `RESET` leaves the estop flag clear and the reason empty, for
every earlier state and configuration; `OnPad` with any other action leaves flag and reason as
they were. If the cycle that follows a `RESET` has a passing `CheckInput`, no stop request on
the trajectory and a controller agent that succeeds, the estop flag is still clear at the end
of that cycle and the four motion values of the command are the ones the agent left (this does
not depend on what `CheckTimestamp` returns). -/
theorem reset_pad_clears_estop (ag : ControllerAgent A) (now : ℚ) (s : ControlComponent A)
    (pad : PadMessage) (cmd : ControlCommand) :
    (OnPad s pad).estop_ = (if pad.action = DrivingAction.RESET then false else s.estop_) ∧
    (OnPad s pad).estop_reason_ =
      (if pad.action = DrivingAction.RESET then "" else s.estop_reason_) ∧
    (pad.action = DrivingAction.RESET →
      (CheckInput (OnPad s pad)).1.ok = true →
      (OnPad s pad).trajectory_.estop.is_estop = false →
      (∀ cin st out,
        AgentCall.ComputeControlCommand cin st out ∈
          (ProduceControlCommand ag now (OnPad s pad) cmd).calls → st.ok = true) →
      (ProduceControlCommand ag now (OnPad s pad) cmd).self.estop_ = false ∧
      ∃ cin st out,
        AgentCall.ComputeControlCommand cin st out ∈
          (ProduceControlCommand ag now (OnPad s pad) cmd).calls ∧
        (ProduceControlCommand ag now (OnPad s pad) cmd).control_command.speed = out.speed ∧
        (ProduceControlCommand ag now (OnPad s pad) cmd).control_command.throttle
          = out.throttle ∧
        (ProduceControlCommand ag now (OnPad s pad) cmd).control_command.brake = out.brake ∧
        (ProduceControlCommand ag now (OnPad s pad) cmd).control_command.gear_location
          = out.gear_location) := by
  refine ⟨?_, ?_, ?_⟩
  · simp only [OnPad]; split_ifs <;> rfl
  · simp only [OnPad]; split_ifs <;> rfl
  · intro hreset hin hstop halg
    have he : (OnPad s pad).estop_ = false := by
      simp [OnPad, hreset]
    have hpre : (checkEstop (checkData now (OnPad s pad) cmd)).self.estop_ = false := by
      rw [checked_estop]; simp [he, hin, hstop]
    obtain ⟨cin, st, out, hmem, -, -, h4, -, -, -, h8, h9, h10, h11⟩ :=
      Produce_running_call ag now (OnPad s pad) cmd hpre
    have hm := (hmem cin st out).2 ⟨rfl, rfl, rfl⟩
    have hok := halg cin st out hm
    rw [hok] at h4 h8 h9 h10 h11
    exact ⟨h4, cin, st, out, hm, h8, h9, h10, h11⟩

/-- C6, instance: estop set with a reason under persistent estop, then a `RESET` pad message,
then a cycle with passing checks and a succeeding controller agent; and a `START` pad message
on the same state. -/
theorem reset_pad_clears_estop_witness :
    persistentComponent.estop_ = true ∧
    (OnPad persistentComponent resetPad).estop_ = false ∧
    (OnPad persistentComponent resetPad).estop_reason_ = "" ∧
    (ProduceControlCommand (sampleAgent Status.OK) 0
      (OnPad persistentComponent resetPad) {}).self.estop_ = false ∧
    (ProduceControlCommand (sampleAgent Status.OK) 0
      (OnPad persistentComponent resetPad) {}).control_command.speed = 5 ∧
    (OnPad persistentComponent startPad).estop_ = true ∧
    (OnPad persistentComponent startPad).estop_reason_ = "lon controller failed" :=
  have h := reset_pad_clears_estop (sampleAgent Status.OK) 0 persistentComponent resetPad {}
  have g := reset_pad_clears_estop (sampleAgent Status.OK) 0 persistentComponent startPad {}
  ⟨by decide, h.1, h.2.1,
    (h.2.2 (by decide) (by decide) (by decide) (fun cin st out hm => by
      obtain ⟨a, l, c, t, h1, -⟩ := logged_call_is_agent_call _ _ _ _ _ _ _ hm
      rw [← h1]; rfl)).1,
    by decide, g.1, g.2.1⟩

/-- C7. Whenever the log of a cycle holds a compute call of the controller agent whose
returned status is a failure, then at the end of `ProduceControlCommand` the estop flag is
set, the estop reason is that status's message, the returned status is that status, and the
command has speed 0, throttle 0, brake `soft_estop_brake` and gear `GEAR_DRIVE`. -/
theorem agent_failure_sets_estop (ag : ControllerAgent A) (now : ℚ) (s : ControlComponent A)
    (cmd cin out : ControlCommand) (st : Status)
    (hcall : AgentCall.ComputeControlCommand cin st out ∈
      (ProduceControlCommand ag now s cmd).calls)
    (hfail : st.ok = false) :
    (ProduceControlCommand ag now s cmd).self.estop_ = true ∧
    (ProduceControlCommand ag now s cmd).self.estop_reason_ = st.error_message ∧
    (ProduceControlCommand ag now s cmd).status = st ∧
    (ProduceControlCommand ag now s cmd).control_command.speed = 0 ∧
    (ProduceControlCommand ag now s cmd).control_command.throttle = 0 ∧
    (ProduceControlCommand ag now s cmd).control_command.brake =
      s.control_conf_.soft_estop_brake ∧
    (ProduceControlCommand ag now s cmd).control_command.gear_location =
      GearPosition.GEAR_DRIVE := by
  cases hpre : (checkEstop (checkData now s cmd)).self.estop_
  · obtain ⟨cin0, st0, out0, hmem, -, -, h4, h5, h6, -, h8, h9, h10, h11⟩ :=
      Produce_running_call ag now s cmd hpre
    obtain ⟨-, rfl, -⟩ := (hmem cin st out).1 hcall
    rw [hfail] at h4 h5 h6 h8 h9 h10 h11
    exact ⟨h4, h5, h6, h8, h9, h10, h11⟩
  · rw [(Produce_estopped ag now s cmd hpre).1] at hcall
    exact absurd hcall (List.not_mem_nil _)

/-- C7, instance: passing checks, no stop request, and a controller agent that fails with
"lon controller failed" after writing speed 5. -/
theorem agent_failure_sets_estop_witness :
    sampleFailure.ok = false ∧
    sampleOutput.speed = 5 ∧
    (ProduceControlCommand (sampleAgent sampleFailure) 0 sampleComponent {}).self.estop_
      = true ∧
    (ProduceControlCommand (sampleAgent sampleFailure) 0 sampleComponent {}).self.estop_reason_
      = "lon controller failed" ∧
    (ProduceControlCommand (sampleAgent sampleFailure) 0 sampleComponent {}).status
      = sampleFailure ∧
    (ProduceControlCommand (sampleAgent sampleFailure) 0 sampleComponent {}).control_command.speed
      = 0 ∧
    (ProduceControlCommand (sampleAgent sampleFailure) 0 sampleComponent {}).control_command.brake
      = 50 :=
  have h := agent_failure_sets_estop (sampleAgent sampleFailure) 0 sampleComponent {}
    sampleInput sampleOutput sampleFailure (by decide) (by decide)
  ⟨by decide, by decide, h.1, h.2.1, h.2.2.1, h.2.2.2.1, h.2.2.2.2.2.1⟩

/-- C8. If `CheckInput` and `CheckTimestamp` both pass, the trajectory carries no stop
request, the estop flag is clear before the cycle, the chassis is in `COMPLETE_AUTO_DRIVE` and
the controller agent succeeds, writing motion values and leaving the engage advice as handed
to it, then `ProduceControlCommand` returns OK, the controller agent is called exactly once
and not reset, the four motion values of the command are exactly the ones the agent left, the
engage advice is `READY_TO_ENGAGE`, and the estop flag is clear at the end of the cycle. -/
theorem normal_cycle_keeps_agent_output (ag : ControllerAgent A) (now : ℚ)
    (s : ControlComponent A) (cmd : ControlCommand)
    (hin : (CheckInput s).1.ok = true)
    (hts : (CheckTimestamp (CheckInput s).2 now).ok = true)
    (hstop : s.trajectory_.estop.is_estop = false)
    (he : s.estop_ = false)
    (hmode : s.chassis_.driving_mode = DrivingMode.COMPLETE_AUTO_DRIVE)
    (halg : ∀ cin st out,
      AgentCall.ComputeControlCommand cin st out ∈ (ProduceControlCommand ag now s cmd).calls →
        st.ok = true ∧ out.engage_advice = cin.engage_advice) :
    (ProduceControlCommand ag now s cmd).status = Status.OK ∧
    (ProduceControlCommand ag now s cmd).control_command.engage_advice.advice =
      Advice.READY_TO_ENGAGE ∧
    (ProduceControlCommand ag now s cmd).self.estop_ = false ∧
    ∃ cin st out,
      (ProduceControlCommand ag now s cmd).calls =
        [AgentCall.ComputeControlCommand cin st out] ∧
      (ProduceControlCommand ag now s cmd).control_command.speed = out.speed ∧
      (ProduceControlCommand ag now s cmd).control_command.throttle = out.throttle ∧
      (ProduceControlCommand ag now s cmd).control_command.brake = out.brake ∧
      (ProduceControlCommand ag now s cmd).control_command.gear_location = out.gear_location := by
  have hpre : (checkEstop (checkData now s cmd)).self.estop_ = false := by
    rw [checked_estop]; simp [he, hin, hstop]
  obtain ⟨cin, st, out, hmem, h2, h3, h4, -, h6, h7, h8, h9, h10, h11⟩ :=
    Produce_running_call ag now s cmd hpre
  obtain ⟨hok, hadv⟩ := halg cin st out ((hmem cin st out).2 ⟨rfl, rfl, rfl⟩)
  obtain ⟨-, -, -, -, -, -, -, -, d9, d10⟩ := checkData_fields now s cmd
  rw [hok] at h4 h6 h8 h9 h10 h11
  refine ⟨?_, ?_, h4, cin, st, out, ?_, h8, h9, h10, h11⟩
  · rw [h6, if_pos rfl, d9, if_pos ⟨hin, hts⟩]
    exact CheckInput_ok_eq s hin
  · rw [h7, hadv, h3, d10, if_pos ⟨hin, hts⟩]
  · rw [h2]; simp [hmode]

/-- C8, instance: all inputs delivered, automatic driving mode, and a controller agent that
succeeds writing speed 5. -/
theorem normal_cycle_keeps_agent_output_witness :
    (ProduceControlCommand (sampleAgent Status.OK) 0 sampleComponent {}).status = Status.OK ∧
    (ProduceControlCommand (sampleAgent Status.OK) 0
      sampleComponent {}).control_command.engage_advice.advice = Advice.READY_TO_ENGAGE ∧
    (ProduceControlCommand (sampleAgent Status.OK) 0 sampleComponent {}).self.estop_ = false ∧
    (ProduceControlCommand (sampleAgent Status.OK) 0 sampleComponent {}).control_command.speed
      = 5 :=
  have h := normal_cycle_keeps_agent_output (sampleAgent Status.OK) 0 sampleComponent {}
    (by decide) (by decide) (by decide) (by decide) (by decide)
    (fun cin st out hm => by
      obtain ⟨a, l, c, t, h1, h2⟩ := logged_call_is_agent_call _ _ _ _ _ _ _ hm
      rw [← h1, ← h2]
      exact ⟨rfl, rfl⟩)
  ⟨h.1, h.2.1, h.2.2.1, by decide⟩

/-- C9. At the end of every `ProduceControlCommand`, for every earlier state, configuration
and controller agent: if the estop flag is set, the command has speed 0, throttle 0, brake
`soft_estop_brake` and gear `GEAR_DRIVE`; if the estop flag is clear, the controller agent was
called in the cycle and these four fields are exactly the ones of the command it left. -/
theorem estop_flag_decides_motion_values (ag : ControllerAgent A) (now : ℚ)
    (s : ControlComponent A) (cmd : ControlCommand) :
    ((ProduceControlCommand ag now s cmd).self.estop_ = true →
      (ProduceControlCommand ag now s cmd).control_command.speed = 0 ∧
      (ProduceControlCommand ag now s cmd).control_command.throttle = 0 ∧
      (ProduceControlCommand ag now s cmd).control_command.brake =
        s.control_conf_.soft_estop_brake ∧
      (ProduceControlCommand ag now s cmd).control_command.gear_location =
        GearPosition.GEAR_DRIVE) ∧
    ((ProduceControlCommand ag now s cmd).self.estop_ = false →
      ∃ cin st out,
        AgentCall.ComputeControlCommand cin st out ∈
          (ProduceControlCommand ag now s cmd).calls ∧
        (ProduceControlCommand ag now s cmd).control_command.speed = out.speed ∧
        (ProduceControlCommand ag now s cmd).control_command.throttle = out.throttle ∧
        (ProduceControlCommand ag now s cmd).control_command.brake = out.brake ∧
        (ProduceControlCommand ag now s cmd).control_command.gear_location
          = out.gear_location) := by
  cases hpre : (checkEstop (checkData now s cmd)).self.estop_
  · obtain ⟨cin, st, out, hmem, -, -, h4, -, -, -, h8, h9, h10, h11⟩ :=
      Produce_running_call ag now s cmd hpre
    have hm := (hmem cin st out).2 ⟨rfl, rfl, rfl⟩
    cases hok : st.ok
    · rw [hok] at h4 h8 h9 h10 h11
      exact ⟨fun _ => ⟨h8, h9, h10, h11⟩, fun hf => absurd (h4.symm.trans hf) (by simp)⟩
    · rw [hok] at h4 h8 h9 h10 h11
      exact ⟨fun ht => absurd (h4.symm.trans ht) (by simp),
        fun _ => ⟨cin, st, out, hm, h8, h9, h10, h11⟩⟩
  · obtain ⟨-, h2, -, -, h5, h6, h7, h8⟩ := Produce_estopped ag now s cmd hpre
    exact ⟨fun _ => ⟨h5, h6, h7, h8⟩, fun hf => absurd ((h2 ▸ hpre).symm.trans hf) (by simp)⟩

/-- C9, instance: a cycle whose controller agent writes speed 5 and then fails ends with the
estop flag set and speed 0; the same cycle with a succeeding agent ends with the flag clear. -/
theorem estop_flag_decides_motion_values_witness :
    (ProduceControlCommand (sampleAgent sampleFailure) 0 sampleComponent {}).self.estop_
      = true ∧
    (ProduceControlCommand (sampleAgent sampleFailure) 0 sampleComponent {}).control_command.speed
      = 0 ∧
    (ProduceControlCommand (sampleAgent Status.OK) 0 sampleComponent {}).self.estop_ = false ∧
    ∃ cin st out,
      AgentCall.ComputeControlCommand cin st out ∈
        (ProduceControlCommand (sampleAgent Status.OK) 0 sampleComponent {}).calls ∧
      (ProduceControlCommand (sampleAgent Status.OK) 0 sampleComponent {}).control_command.speed
        = out.speed :=
  have h := (estop_flag_decides_motion_values (sampleAgent sampleFailure) 0
    sampleComponent {}).1 (by decide)
  have g := (estop_flag_decides_motion_values (sampleAgent Status.OK) 0
    sampleComponent {}).2 (by decide)
  ⟨by decide, h.1, by decide,
    g.elim fun cin g1 => g1.elim fun st g2 => g2.elim fun out g3 => ⟨cin, st, out, g3.1, g3.2.1⟩⟩

/-- C10 (counterexample). On a component whose localization reader does not exist,
`CheckInput` returns its failure before the loop over the trajectory points: the second point
has velocity 1/1000, below the resolution 1/100, and after `CheckInput` it still has velocity
1/1000 and acceleration 1/2. -/
theorem CheckInput_failure_leaves_slow_point :
    (CheckInput noReaderComponent).1 =
      { code := ErrorCode.CONTROL_COMPUTE_ERROR, msg := "No localization msg" } ∧
    noReaderComponent.trajectory_.trajectory_point[1]? = some { v := 1 / 1000, a := 1 / 2 } ∧
    (1 / 1000 : ℚ) < noReaderComponent.control_conf_.minimum_speed_resolution ∧
    (CheckInput noReaderComponent).2.trajectory_.trajectory_point[1]? =
      some { v := 1 / 1000, a := 1 / 2 } ∧
    (1 / 1000 : ℚ) ≠ 0 ∧ (1 / 2 : ℚ) ≠ 0 := by
  refine ⟨by decide, rfl, ?_, rfl, by norm_num, by norm_num⟩
  simp only [noReaderComponent, sampleComponent, sampleConf]
  norm_num

/-- C10 (amended). If the three readers exist, then for every trajectory point whose velocity
is below `minimum_speed_resolution`, the point at the same position after `CheckInput` has
velocity 0 and acceleration 0, whether `CheckInput` returns OK or a failure. -/
theorem CheckInput_clamps_slow_points (s : ControlComponent A)
    (hl : s.localization_reader_ ≠ none) (hc : s.chassis_reader_ ≠ none)
    (ht : s.trajectory_reader_ ≠ none) (i : Nat) (p : TrajectoryPoint)
    (hp : s.trajectory_.trajectory_point[i]? = some p)
    (hv : p.v < s.control_conf_.minimum_speed_resolution) :
    ∃ q, (CheckInput s).2.trajectory_.trajectory_point[i]? = some q ∧ q.v = 0 ∧ q.a = 0 := by
  have hlen : s.trajectory_.trajectory_point.length ≠ 0 := by
    intro h0
    rw [List.length_eq_zero.mp h0] at hp
    simp at hp
  refine ⟨{ p with v := 0, a := 0 }, ?_, rfl, rfl⟩
  simp only [CheckInput, Option.isNone_iff_eq_none, hl, hc, ht, if_false, hlen, decide_False,
    Bool.and_false, Bool.false_eq_true, List.getElem?_map, hp, Option.map_some']
  simp [clampPoint, hv]

/-- C10 (amended), instance: the second point of the sample trajectory, velocity 1/1000 and
acceleration 1/2, under resolution 1/100. -/
theorem CheckInput_clamps_slow_points_witness :
    sampleComponent.trajectory_.trajectory_point[1]? = some { v := 1 / 1000, a := 1 / 2 } ∧
    ∃ q, (CheckInput sampleComponent).2.trajectory_.trajectory_point[1]? = some q ∧
      q.v = 0 ∧ q.a = 0 :=
  ⟨rfl,
    CheckInput_clamps_slow_points sampleComponent (by decide) (by decide) (by decide) 1
      { v := 1 / 1000, a := 1 / 2 } rfl
      (by simp only [sampleComponent, sampleConf]; norm_num)⟩

/-! ## The checkers run twice, the staleness rule, incomplete input -/

theorem clampPoint_idem (conf : ControlConf) (p : TrajectoryPoint) :
    clampPoint conf (clampPoint conf p) = clampPoint conf p := by
  unfold clampPoint
  by_cases h : p.v < conf.minimum_speed_resolution
  · by_cases h0 : (0 : ℚ) < conf.minimum_speed_resolution <;> simp [h, h0]
  · simp [h]

theorem map_clampPoint_idem (conf : ControlConf) (l : List TrajectoryPoint) :
    (l.map (clampPoint conf)).map (clampPoint conf) = l.map (clampPoint conf) := by
  induction l with
  | nil => rfl
  | cons p rest ih => simp only [List.map_cons, clampPoint_idem, ih]

theorem CheckTimestamp_after_CheckInput (s : ControlComponent A) (now : ℚ) :
    CheckTimestamp (CheckInput s).2 now = CheckTimestamp s now := by
  obtain ⟨h1, -, -, h4, h5, -, -, -, h9, -⟩ := CheckInput_frame s
  simp only [CheckTimestamp, h1, h4, h5, h9]

/-- C11. Running `CheckInput` again on the component left by a first run returns the same
status and leaves the component, every trajectory point included, as the first run left it;
`CheckTimestamp` changes nothing and, at the same clock reading, returns the same status
before and after any of these `CheckInput` runs. -/
theorem checkers_idempotent (s : ControlComponent A) (now : ℚ) :
    (CheckInput (CheckInput s).2).1 = (CheckInput s).1 ∧
    (CheckInput (CheckInput s).2).2 = (CheckInput s).2 ∧
    CheckTimestamp (CheckInput (CheckInput s).2).2 now = CheckTimestamp (CheckInput s).2 now ∧
    CheckTimestamp (CheckInput s).2 now = CheckTimestamp s now := by
  have key : CheckInput (CheckInput s).2 = CheckInput s := by
    by_cases h1 : s.localization_reader_.isNone = true
    · have e : CheckInput s =
          ({ code := ErrorCode.CONTROL_COMPUTE_ERROR, msg := "No localization msg" }, s) := by
        unfold CheckInput; rw [if_pos h1]
      rw [e]; exact e
    by_cases h2 : s.chassis_reader_.isNone = true
    · have e : CheckInput s =
          ({ code := ErrorCode.CONTROL_COMPUTE_ERROR, msg := "No chassis msg" }, s) := by
        unfold CheckInput; rw [if_neg h1, if_pos h2]
      rw [e]; exact e
    by_cases h3 : s.trajectory_reader_.isNone = true
    · have e : CheckInput s =
          ({ code := ErrorCode.CONTROL_COMPUTE_ERROR, msg := "No planning msg" }, s) := by
        unfold CheckInput; rw [if_neg h1, if_neg h2, if_pos h3]
      rw [e]; exact e
    by_cases h4 : (!s.trajectory_.estop.is_estop
        && decide (s.trajectory_.trajectory_point.length = 0)) = true
    · have e : CheckInput s =
          ({ code := ErrorCode.CONTROL_COMPUTE_ERROR,
             msg := "planning has no trajectory point." }, s) := by
        unfold CheckInput; rw [if_neg h1, if_neg h2, if_neg h3, if_pos h4]
      rw [e]; exact e
    · have e : CheckInput s =
          (Status.OK,
            { s with
              trajectory_ :=
                { s.trajectory_ with
                  trajectory_point :=
                    s.trajectory_.trajectory_point.map (clampPoint s.control_conf_) } }) := by
        unfold CheckInput; rw [if_neg h1, if_neg h2, if_neg h3, if_neg h4]
      rw [e]
      unfold CheckInput
      dsimp only
      rw [if_neg h1, if_neg h2, if_neg h3, List.length_map, if_neg h4, map_clampPoint_idem]
  refine ⟨by rw [key], by rw [key], by rw [key], CheckTimestamp_after_CheckInput s now⟩

/-- C12. `CheckTimestamp` returns OK whenever timestamp checking is disabled or test mode is
on. Otherwise it reports the first stale stream in the order localization, chassis,
trajectory, each stream judged by the rule `now − timestamp > miss threshold × period` with
its own threshold and period, and it returns OK exactly when none of the three is stale. -/
theorem CheckTimestamp_reports_first_stale (s : ControlComponent A) (now : ℚ) :
    ((s.control_conf_.enable_input_timestamp_check = false ∨
        s.control_conf_.is_control_test_mode = true) → CheckTimestamp s now = Status.OK) ∧
    (s.control_conf_.enable_input_timestamp_check = true →
      s.control_conf_.is_control_test_mode = false →
      CheckTimestamp s now =
        (if localizationStale s now then
           { code := ErrorCode.CONTROL_COMPUTE_ERROR, msg := "Localization msg timeout" }
         else if chassisStale s now then
           { code := ErrorCode.CONTROL_COMPUTE_ERROR, msg := "Chassis msg timeout" }
         else if trajectoryStale s now then
           { code := ErrorCode.CONTROL_COMPUTE_ERROR, msg := "Trajectory msg timeout" }
         else Status.OK) ∧
      ((CheckTimestamp s now).ok = true ↔
        (localizationStale s now = false ∧ chassisStale s now = false ∧
          trajectoryStale s now = false))) := by
  refine ⟨?_, ?_⟩
  · rintro (h | h) <;> simp [CheckTimestamp, h]
  · intro h1 h2
    have heq : CheckTimestamp s now =
        (if localizationStale s now then
           { code := ErrorCode.CONTROL_COMPUTE_ERROR, msg := "Localization msg timeout" }
         else if chassisStale s now then
           { code := ErrorCode.CONTROL_COMPUTE_ERROR, msg := "Chassis msg timeout" }
         else if trajectoryStale s now then
           { code := ErrorCode.CONTROL_COMPUTE_ERROR, msg := "Trajectory msg timeout" }
         else Status.OK) := by
      simp only [CheckTimestamp, localizationStale, chassisStale, trajectoryStale, stale, h1, h2,
        Bool.not_true, Bool.or_false, Bool.false_eq_true, if_false, decide_eq_true_eq]
    refine ⟨heq, ?_⟩
    rw [heq]
    cases localizationStale s now <;> cases chassisStale s now <;>
      cases trajectoryStale s now <;> simp [Status.ok, Status.OK]

/-- C12, instance: at 100.1 s the localization stamped 100 s is within its 0.2 s budget, the
chassis stamped 99 s and the trajectory stamped 98 s are both late; the chassis is reported. -/
theorem CheckTimestamp_reports_first_stale_witness :
    localizationStale timedComponent (100 + 1 / 10) = false ∧
    chassisStale timedComponent (100 + 1 / 10) = true ∧
    trajectoryStale timedComponent (100 + 1 / 10) = true ∧
    CheckTimestamp timedComponent (100 + 1 / 10) =
      { code := ErrorCode.CONTROL_COMPUTE_ERROR, msg := "Chassis msg timeout" } :=
  have hl : localizationStale timedComponent (100 + 1 / 10) = false := by
    simp only [localizationStale, stale, timedComponent, sampleComponent, sampleConf]
    norm_num
  have hc : chassisStale timedComponent (100 + 1 / 10) = true := by
    simp only [chassisStale, stale, timedComponent, sampleComponent, sampleConf]
    norm_num
  have ht : trajectoryStale timedComponent (100 + 1 / 10) = true := by
    simp only [trajectoryStale, stale, timedComponent, sampleComponent, sampleConf]
    norm_num
  ⟨hl, hc, ht, by
    rw [((CheckTimestamp_reports_first_stale timedComponent (100 + 1 / 10)).2
      (by decide) (by decide)).1, hl, hc]
    rfl⟩

/-- C14. If the three readers exist, `CheckInput` fails with "planning has no trajectory
point." if and only if the trajectory carries no stop request and has zero trajectory points;
a trajectory with a stop request, and any trajectory with at least one point, passes. -/
theorem CheckInput_incomplete_iff (s : ControlComponent A)
    (hl : s.localization_reader_ ≠ none) (hc : s.chassis_reader_ ≠ none)
    (ht : s.trajectory_reader_ ≠ none) :
    ((CheckInput s).1 =
        { code := ErrorCode.CONTROL_COMPUTE_ERROR, msg := "planning has no trajectory point." } ↔
      (s.trajectory_.estop.is_estop = false ∧ s.trajectory_.trajectory_point.length = 0)) ∧
    ((s.trajectory_.estop.is_estop = true ∨ s.trajectory_.trajectory_point.length ≠ 0) →
      (CheckInput s).1 = Status.OK) := by
  by_cases hcond : s.trajectory_.estop.is_estop = false ∧
      s.trajectory_.trajectory_point.length = 0
  · have hres : (CheckInput s).1 =
        { code := ErrorCode.CONTROL_COMPUTE_ERROR, msg := "planning has no trajectory point." } := by
      simp [CheckInput, hl, hc, ht, hcond.1, hcond.2]
    refine ⟨⟨fun _ => hcond, fun _ => hres⟩, ?_⟩
    rintro (h | h)
    · rw [hcond.1] at h; exact absurd h (by simp)
    · exact absurd hcond.2 h
  · have hres : (CheckInput s).1 = Status.OK := by
      simp only [CheckInput, Option.isNone_iff_eq_none, hl, hc, ht, if_false]
      rw [if_neg]
      intro hb
      apply hcond
      simpa using hb
    refine ⟨⟨fun h => ?_, fun h => absurd h hcond⟩, fun _ => hres⟩
    rw [hres] at h
    exact absurd h (by simp [Status.OK])

/-- C14, instance: a trajectory with a stop request and no points passes, the sample
trajectory with two points passes, and the empty trajectory without a stop request fails. -/
theorem CheckInput_incomplete_iff_witness :
    (CheckInput stopNoPointsComponent).1 = Status.OK ∧
    (CheckInput sampleComponent).1 = Status.OK ∧
    (CheckInput startupComponent).1 =
      { code := ErrorCode.CONTROL_COMPUTE_ERROR, msg := "planning has no trajectory point." } :=
  ⟨(CheckInput_incomplete_iff stopNoPointsComponent (by decide) (by decide) (by decide)).2
      (Or.inl (by decide)),
    (CheckInput_incomplete_iff sampleComponent (by decide) (by decide) (by decide)).2
      (Or.inr (by decide)),
    (CheckInput_incomplete_iff startupComponent (by decide) (by decide) (by decide)).1.2
      ⟨by decide, by decide⟩⟩

/-! ## A stale input -/

theorem timedComponent_late :
    CheckTimestamp (CheckInput timedComponent).2 (100 + 1 / 10) =
      { code := ErrorCode.CONTROL_COMPUTE_ERROR, msg := "Chassis msg timeout" } := by
  rw [CheckTimestamp_after_CheckInput]
  simp only [CheckTimestamp, timedComponent, sampleComponent, sampleConf]
  norm_num

/-- C13 (counterexample). `CheckInput` passes, the chassis message is late, and the controller
agent, called because the estop flag is clear, reports "lon controller failed": the status
returned by `ProduceControlCommand` is the agent's failure, not the staleness failure. -/
theorem agent_failure_replaces_stale_status :
    (CheckInput timedComponent).1.ok = true ∧
    CheckTimestamp (CheckInput timedComponent).2 (100 + 1 / 10) =
      { code := ErrorCode.CONTROL_COMPUTE_ERROR, msg := "Chassis msg timeout" } ∧
    (ProduceControlCommand (sampleAgent sampleFailure) (100 + 1 / 10) timedComponent {}).status =
      { code := ErrorCode.OTHER 7, msg := "lon controller failed" } ∧
    (ProduceControlCommand (sampleAgent sampleFailure) (100 + 1 / 10) timedComponent {}).self.estop_
      = true := by
  have hpre : (checkEstop (checkData (100 + 1 / 10) timedComponent {})).self.estop_ = false := by
    rw [checked_estop]; decide
  obtain ⟨cin, st, out, hmem, -, -, h4, -, h6, -⟩ :=
    Produce_running_call (sampleAgent sampleFailure) (100 + 1 / 10) timedComponent {} hpre
  obtain ⟨a, l, c, t, h1, -⟩ := logged_call_is_agent_call _ _ _ _ _ _ _
    ((hmem cin st out).2 ⟨rfl, rfl, rfl⟩)
  have hst : st = sampleFailure := h1.symm
  subst hst
  refine ⟨by decide, timedComponent_late, ?_, ?_⟩
  · rw [h6]; rfl
  · rw [h4]; rfl

/-- C13 (amended). In a cycle where `CheckInput` passes and `CheckTimestamp` fails:
the status returned by `ProduceControlCommand` is the staleness failure unless the controller
agent was called in the cycle and reported a failure, in which case it is that failure; the
engage advice is overwritten with `DISALLOW_ENGAGE` and the staleness message before the agent
is called when the chassis is not in `COMPLETE_AUTO_DRIVE`, is left as it came in otherwise,
and stays so in the command if the agent leaves the advice as handed to it; the estop flag at
the end is set exactly when the recomputation from the earlier flag and the stop request sets
it or a called agent failed, so the staleness failure adds nothing to it; and with the flag
clear before the cycle, no stop request and a succeeding agent, the flag is clear at the end
and the four motion values are the ones the agent left. -/
theorem stale_input_does_not_estop (ag : ControllerAgent A) (now : ℚ)
    (s : ControlComponent A) (cmd : ControlCommand)
    (hin : (CheckInput s).1.ok = true)
    (hts : (CheckTimestamp (CheckInput s).2 now).ok = false) :
    ((∀ cin st out,
        AgentCall.ComputeControlCommand cin st out ∈ (ProduceControlCommand ag now s cmd).calls →
          st.ok = true) →
      (ProduceControlCommand ag now s cmd).status = CheckTimestamp (CheckInput s).2 now) ∧
    (∀ cin st out,
      AgentCall.ComputeControlCommand cin st out ∈ (ProduceControlCommand ag now s cmd).calls →
        st.ok = false → (ProduceControlCommand ag now s cmd).status = st) ∧
    (∀ cin st out,
      AgentCall.ComputeControlCommand cin st out ∈ (ProduceControlCommand ag now s cmd).calls →
        cin.engage_advice =
          (if s.chassis_.driving_mode ≠ DrivingMode.COMPLETE_AUTO_DRIVE then
             { advice := Advice.DISALLOW_ENGAGE
               reason := (CheckTimestamp (CheckInput s).2 now).error_message }
           else cmd.engage_advice)) ∧
    ((∀ cin st out,
        AgentCall.ComputeControlCommand cin st out ∈ (ProduceControlCommand ag now s cmd).calls →
          out.engage_advice = cin.engage_advice) →
      (ProduceControlCommand ag now s cmd).control_command.engage_advice =
        (if s.chassis_.driving_mode ≠ DrivingMode.COMPLETE_AUTO_DRIVE then
           { advice := Advice.DISALLOW_ENGAGE
             reason := (CheckTimestamp (CheckInput s).2 now).error_message }
         else cmd.engage_advice)) ∧
    ((ProduceControlCommand ag now s cmd).self.estop_ = true ↔
      ((if s.control_conf_.enable_persistent_estop then
          s.estop_ || s.trajectory_.estop.is_estop
        else s.trajectory_.estop.is_estop) = true ∨
       ∃ cin st out,
         AgentCall.ComputeControlCommand cin st out ∈
           (ProduceControlCommand ag now s cmd).calls ∧ st.ok = false)) ∧
    (s.estop_ = false → s.trajectory_.estop.is_estop = false →
      (∀ cin st out,
        AgentCall.ComputeControlCommand cin st out ∈ (ProduceControlCommand ag now s cmd).calls →
          st.ok = true) →
      (ProduceControlCommand ag now s cmd).self.estop_ = false ∧
      ∃ cin st out,
        AgentCall.ComputeControlCommand cin st out ∈
          (ProduceControlCommand ag now s cmd).calls ∧
        (ProduceControlCommand ag now s cmd).control_command.speed = out.speed ∧
        (ProduceControlCommand ag now s cmd).control_command.throttle = out.throttle ∧
        (ProduceControlCommand ag now s cmd).control_command.brake = out.brake ∧
        (ProduceControlCommand ag now s cmd).control_command.gear_location
          = out.gear_location) := by
  obtain ⟨-, -, -, -, -, -, -, -, d9, d10⟩ := checkData_fields now s cmd
  have hnot : ¬((CheckInput s).1.ok = true ∧ (CheckTimestamp (CheckInput s).2 now).ok = true) := by
    rw [hts]; simp
  rw [if_neg hnot, if_pos hin] at d9 d10
  have hpre := checked_estop now s cmd
  rw [hin] at hpre
  simp only [Bool.not_true, Bool.or_false] at hpre
  cases hflag : (checkEstop (checkData now s cmd)).self.estop_
  · obtain ⟨cin, st, out, hmem, -, h3, h4, -, h6, h7, h8, h9, h10, h11⟩ :=
      Produce_running_call ag now s cmd hflag
    have hm := (hmem cin st out).2 ⟨rfl, rfl, rfl⟩
    rw [hflag] at hpre
    refine ⟨?_, ?_, ?_, ?_, ?_, ?_⟩
    · intro hall
      rw [h6, hall cin st out hm, if_pos rfl, d9]
    · intro cin2 st2 out2 hm2 hf
      obtain ⟨-, rfl, -⟩ := (hmem cin2 st2 out2).1 hm2
      rw [h6, hf]; rfl
    · intro cin2 st2 out2 hm2
      obtain ⟨rfl, -, -⟩ := (hmem cin2 st2 out2).1 hm2
      rw [h3, d10]; rfl
    · intro hall
      rw [h7, hall cin st out hm, h3, d10]; rfl
    · rw [h4, ← hpre]
      constructor
      · intro hst
        exact Or.inr ⟨cin, st, out, hm, by simpa using hst⟩
      · rintro (hc | ⟨cin2, st2, out2, hm2, hf⟩)
        · exact absurd hc (by simp)
        · obtain ⟨-, rfl, -⟩ := (hmem cin2 st2 out2).1 hm2
          simp [hf]
    · intro _ _ hall
      have hok := hall cin st out hm
      rw [hok] at h4 h8 h9 h10 h11
      exact ⟨h4, cin, st, out, hm, h8, h9, h10, h11⟩
  · obtain ⟨h1, h2, h3, h4, -⟩ := Produce_estopped ag now s cmd hflag
    rw [hflag] at hpre
    refine ⟨fun _ => by rw [h3, d9], ?_, ?_, fun _ => by rw [h4, d10]; rfl, ?_, ?_⟩
    · intro cin st out hm
      rw [h1] at hm
      exact absurd hm (List.not_mem_nil _)
    · intro cin st out hm
      rw [h1] at hm
      exact absurd hm (List.not_mem_nil _)
    · rw [h2, hflag, ← hpre]
      simp
    · intro he hstop
      rw [he, hstop] at hpre
      simp at hpre

/-- C13 (amended), instance: manual driving mode, `CheckInput` passes, the chassis message is
late. With a controller agent that succeeds writing speed 5, the status is "Chassis msg
timeout", the advice is `DISALLOW_ENGAGE` with that message, the estop flag is clear and the
command has speed 5; with an agent that fails, the status is the agent's failure. -/
theorem stale_input_does_not_estop_witness :
    (ProduceControlCommand (sampleAgent Status.OK) (100 + 1 / 10) timedComponent {}).status =
      { code := ErrorCode.CONTROL_COMPUTE_ERROR, msg := "Chassis msg timeout" } ∧
    (ProduceControlCommand (sampleAgent Status.OK) (100 + 1 / 10)
      timedComponent {}).control_command.engage_advice =
      { advice := Advice.DISALLOW_ENGAGE, reason := "Chassis msg timeout" } ∧
    (ProduceControlCommand (sampleAgent Status.OK) (100 + 1 / 10) timedComponent {}).self.estop_
      = false ∧
    (ProduceControlCommand (sampleAgent Status.OK) (100 + 1 / 10)
      timedComponent {}).control_command.speed = 5 ∧
    (ProduceControlCommand (sampleAgent Status.OK) (100 + 1 / 10)
      timedComponent {}).control_command.gear_location = GearPosition.GEAR_LOW ∧
    (ProduceControlCommand (sampleAgent sampleFailure) (100 + 1 / 10)
      timedComponent {}).status = sampleFailure := by
  have hlate : (CheckTimestamp (CheckInput timedComponent).2 (100 + 1 / 10)).ok = false := by
    rw [timedComponent_late]; rfl
  have h := stale_input_does_not_estop (sampleAgent Status.OK) (100 + 1 / 10)
    timedComponent {} (by decide) hlate
  have g := stale_input_does_not_estop (sampleAgent sampleFailure) (100 + 1 / 10)
    timedComponent {} (by decide) hlate
  have hok : ∀ cin st out,
      AgentCall.ComputeControlCommand cin st out ∈
        (ProduceControlCommand (sampleAgent Status.OK) (100 + 1 / 10) timedComponent {}).calls →
      st.ok = true := by
    intro cin st out hm
    obtain ⟨a, l, c, t, h1, -⟩ := logged_call_is_agent_call _ _ _ _ _ _ _ hm
    rw [← h1]; rfl
  have hadv : ∀ cin st out,
      AgentCall.ComputeControlCommand cin st out ∈
        (ProduceControlCommand (sampleAgent Status.OK) (100 + 1 / 10) timedComponent {}).calls →
      out.engage_advice = cin.engage_advice := by
    intro cin st out hm
    obtain ⟨a, l, c, t, -, h2⟩ := logged_call_is_agent_call _ _ _ _ _ _ _ hm
    rw [← h2]; rfl
  obtain ⟨hclear, cin, st, out, hm, hspeed, -, -, hgear⟩ :=
    h.2.2.2.2.2 (by decide) (by decide) hok
  obtain ⟨a, l, c, t, -, hout⟩ := logged_call_is_agent_call _ _ _ _ _ _ _ hm
  refine ⟨by rw [h.1 hok, timedComponent_late],
    by rw [h.2.2.2.1 hadv, timedComponent_late]; rfl, hclear,
    by rw [hspeed, ← hout]; rfl, by rw [hgear, ← hout]; rfl, ?_⟩
  have hpre : (checkEstop (checkData (100 + 1 / 10) timedComponent {})).self.estop_ = false := by
    rw [checked_estop]; decide
  obtain ⟨cin2, st2, out2, hmem2, -⟩ :=
    Produce_running_call (sampleAgent sampleFailure) (100 + 1 / 10) timedComponent {} hpre
  have hm2 := (hmem2 cin2 st2 out2).2 ⟨rfl, rfl, rfl⟩
  obtain ⟨a2, l2, c2, t2, h1, -⟩ := logged_call_is_agent_call _ _ _ _ _ _ _ hm2
  have hst : st2 = sampleFailure := h1.symm
  rw [g.2.1 cin2 st2 out2 hm2 (by rw [hst]; rfl), hst]

/-! ## `Proc` -/

theorem Proc_finished (ag : ControllerAgent A) (clock : CycleClock) (s : ControlComponent A)
    (h : testFinished clock s = true) :
    (Proc ag clock s).ret = false ∧
    (Proc ag clock s).self = setPadAction s ∧
    (Proc ag clock s).control_command = none ∧
    (Proc ag clock s).written = none ∧
    (Proc ag clock s).calls = [] := by
  have h2 : (s.control_conf_.is_control_test_mode
      && decide (s.control_conf_.control_test_duration > 0)
      && decide (clock.start_timestamp - s.init_time_ > s.control_conf_.control_test_duration))
      = true := h
  simp only [Proc]
  rw [if_pos h2]
  exact ⟨rfl, rfl, rfl, rfl, rfl⟩

theorem Proc_runs (ag : ControllerAgent A) (clock : CycleClock) (s : ControlComponent A)
    (h : testFinished clock s = false) :
    (Proc ag clock s).ret = true ∧
    (Proc ag clock s).calls = (procProduce ag clock s).calls ∧
    (Proc ag clock s).self.estop_ = (procProduce ag clock s).self.estop_ ∧
    (Proc ag clock s).self.estop_reason_ = (procProduce ag clock s).self.estop_reason_ ∧
    (Proc ag clock s).self.pad_received_ = false ∧
    ∃ cmd, (Proc ag clock s).control_command = some cmd ∧
      cmd.latency_stats.total_time_ms = (clock.end_timestamp - clock.start_timestamp) * 1000 ∧
      cmd.latency_stats.total_time_exceeded =
        decide ((clock.end_timestamp - clock.start_timestamp) * 1000
          < s.control_conf_.control_period) ∧
      cmd.header.status.error_code = (procProduce ag clock s).status.code ∧
      cmd.header.status.msg =
        (if (procProduce ag clock s).self.estop_ then (procProduce ag clock s).self.estop_reason_
         else (procProduce ag clock s).status.msg) ∧
      cmd.pad_msg =
        (if (procProduce ag clock s).self.pad_received_ then
           some (procProduce ag clock s).self.pad_msg_
         else (procProduce ag clock s).control_command.pad_msg) ∧
      cmd.speed = (procProduce ag clock s).control_command.speed ∧
      (Proc ag clock s).written =
        (SendCmd (Proc ag clock s).self clock.send_timestamp cmd).2 := by
  have h2 : ¬ ((s.control_conf_.is_control_test_mode
      && decide (s.control_conf_.control_test_duration > 0)
      && decide (clock.start_timestamp - s.init_time_ > s.control_conf_.control_test_duration))
      = true) := by
    have h3 : testFinished clock s = false := h
    unfold testFinished at h3
    rw [h3]; simp
  have hconf : (procProduce ag clock s).self.control_conf_ = s.control_conf_ :=
    Produce_conf ag clock.current_timestamp (setPadAction s) {}
  have hproc : Proc ag clock s =
      (let p := procProduce ag clock s
       let cmd1 : ControlCommand :=
         if p.self.pad_received_ then { p.control_command with pad_msg := some p.self.pad_msg_ }
         else p.control_command
       let s2 := if p.self.pad_received_ then { p.self with pad_received_ := false } else p.self
       let time_diff_ms := (clock.end_timestamp - clock.start_timestamp) * 1000
       let cmd2 : ControlCommand :=
         { cmd1 with
           latency_stats :=
             { total_time_ms := time_diff_ms
               total_time_exceeded := decide (time_diff_ms < s2.control_conf_.control_period) } }
       let cmd3 : ControlCommand :=
         { cmd2 with header := { cmd2.header with status := p.status.Save cmd2.header.status } }
       let cmd4 : ControlCommand :=
         if s2.estop_ then
           { cmd3 with
             header :=
               { cmd3.header with status := { cmd3.header.status with msg := s2.estop_reason_ } } }
         else cmd3
       { ret := true, self := s2, control_command := some cmd4,
         written := (SendCmd s2 clock.send_timestamp cmd4).2, calls := p.calls }) := by
    simp only [Proc]
    rw [if_neg h2]
    rfl
  rw [hproc]
  generalize procProduce ag clock s = p at hconf ⊢
  cases hr : p.self.pad_received_ <;> cases he : p.self.estop_ <;>
    simp [hr, he, Status.Save, hconf]

theorem CheckInput_keeps (s : ControlComponent A) :
    (CheckInput s).2.pad_msg_ = s.pad_msg_ ∧
    (CheckInput s).2.pad_received_ = s.pad_received_ ∧
    (CheckInput s).2.init_time_ = s.init_time_ := by
  unfold CheckInput
  split_ifs <;> simp

theorem Produce_keeps (ag : ControllerAgent A) (now : ℚ) (s : ControlComponent A)
    (cmd : ControlCommand) :
    (ProduceControlCommand ag now s cmd).self.pad_msg_ = s.pad_msg_ ∧
    (ProduceControlCommand ag now s cmd).self.pad_received_ = s.pad_received_ ∧
    (ProduceControlCommand ag now s cmd).self.init_time_ = s.init_time_ := by
  obtain ⟨k1, k2, k3⟩ := CheckInput_keeps s
  have hd : (checkData now s cmd).self.pad_msg_ = s.pad_msg_ ∧
      (checkData now s cmd).self.pad_received_ = s.pad_received_ ∧
      (checkData now s cmd).self.init_time_ = s.init_time_ := by
    simp only [checkData]
    split_ifs <;> exact ⟨k1, k2, k3⟩
  have he : ∀ f : Produced A, (checkEstop f).self.pad_msg_ = f.self.pad_msg_ ∧
      (checkEstop f).self.pad_received_ = f.self.pad_received_ ∧
      (checkEstop f).self.init_time_ = f.self.init_time_ := by
    intro f
    simp only [checkEstop]
    split_ifs <;> exact ⟨rfl, rfl, rfl⟩
  have hc : ∀ f : Produced A, (controlProcess ag f).self.pad_msg_ = f.self.pad_msg_ ∧
      (controlProcess ag f).self.pad_received_ = f.self.pad_received_ ∧
      (controlProcess ag f).self.init_time_ = f.self.init_time_ := by
    intro f
    simp only [controlProcess]
    split_ifs <;> exact ⟨rfl, rfl, rfl⟩
  unfold ProduceControlCommand
  rw [(checkSignal_fields _).2.1, (setEstopCommand_fields _).2.1]
  obtain ⟨c1, c2, c3⟩ := hc (checkEstop (checkData now s cmd))
  obtain ⟨e1, e2, e3⟩ := he (checkData now s cmd)
  exact ⟨c1.trans (e1.trans hd.1), c2.trans (e2.trans hd.2.1), c3.trans (e3.trans hd.2.2)⟩

/-- What `Proc` echoes: when a pad message was received since the last cycle, the command
carries `pad_msg_` with its action replaced by the configured action (line 227), and the
received flag is cleared. -/
theorem Proc_pad_echo (ag : ControllerAgent A) (clock : CycleClock) (s : ControlComponent A)
    (h : testFinished clock s = false) (hr : s.pad_received_ = true) :
    (Proc ag clock s).self.pad_received_ = false ∧
    ∃ cmd, (Proc ag clock s).control_command = some cmd ∧
      cmd.pad_msg = some (s.pad_msg_.set_action s.control_conf_.action) := by
  obtain ⟨-, -, -, -, h5, cmd, hc, -, -, -, -, hpad, -⟩ := Proc_runs ag clock s h
  obtain ⟨k1, k2, -⟩ := Produce_keeps ag clock.current_timestamp (setPadAction s) {}
  refine ⟨h5, cmd, hc, ?_⟩
  have k2' : (procProduce ag clock s).self.pad_received_ = true := k2.trans hr
  have k1' : (procProduce ag clock s).self.pad_msg_ =
      s.pad_msg_.set_action s.control_conf_.action := k1
  rw [hpad, k2', if_pos rfl, k1']

theorem step_init_time (ag : ControllerAgent A) (s : ControlComponent A) (e : Event) :
    (step ag s e).init_time_ = s.init_time_ := by
  cases e with
  | chassis msg => rfl
  | trajectory msg => rfl
  | localization msg => rfl
  | pad msg => simp only [step, OnPad]; split_ifs <;> rfl
  | monitor msg => simp only [step, OnMonitor]; split_ifs <;> rfl
  | proc clock =>
    simp only [step, Proc]
    split_ifs <;> first | rfl | exact (Produce_keeps ag _ _ _).2.2

/-- No delivery, monitor message or cycle changes `init_time_`. -/
theorem run_init_time (ag : ControllerAgent A) (events : List Event) :
    ∀ s : ControlComponent A, (run ag s events).init_time_ = s.init_time_ := by
  induction events with
  | nil => intro s; rfl
  | cons e rest ih =>
    intro s
    exact (ih (step ag s e)).trans (step_init_time ag s e)

/-! ## The claims about `Proc` and `Init` -/

/-- C15 (defect in the code). `Proc` compares the clock reading with `init_time_`, which no
function of this file assigns (the assignment at line 44 is commented out), so the test at
lines 231-233 does not measure the time since the first cycle: in test mode with duration
5 s, whatever value `init_time_` holds, a cycle at clock reading `init_time_ + 5.1` returns
false without a command, also when it is the very first cycle; with `init_time_ = 0` the first
cycle at clock reading 1000 returns false. -/
theorem first_cycle_can_end_test_run :
    (∀ c : ℚ,
      (Proc (sampleAgent Status.OK) (clockAt (c + 51 / 10)) (testComponent c)).ret = false ∧
      (Proc (sampleAgent Status.OK) (clockAt (c + 51 / 10)) (testComponent c)).control_command
        = none ∧
      (Proc (sampleAgent Status.OK) (clockAt (c + 51 / 10)) (testComponent c)).written = none) ∧
    (testComponent 0).init_time_ = 0 ∧
    (Proc (sampleAgent Status.OK) (clockAt 1000) (testComponent 0)).ret = false := by
  have hfin : ∀ c t : ℚ, t - c > 5 → testFinished (clockAt t) (testComponent c) = true := by
    intro c t h
    simp only [testFinished, testComponent, clockAt, sampleComponent, sampleConf]
    simp only [Bool.true_and, Bool.and_eq_true, decide_eq_true_eq]
    exact ⟨by norm_num, h⟩
  refine ⟨fun c => ?_, rfl, ?_⟩
  · obtain ⟨h1, -, h3, h4, -⟩ :=
      Proc_finished (sampleAgent Status.OK) (clockAt (c + 51 / 10)) (testComponent c)
        (hfin c _ (by norm_num))
    exact ⟨h1, h3, h4⟩
  · exact (Proc_finished (sampleAgent Status.OK) (clockAt 1000) (testComponent 0)
      (hfin 0 1000 (by norm_num))).1

/-- C16 (defect in the code). `Proc` overwrites the action of `pad_msg_` with the configured
action at line 227 before it echoes the pad message: after a pad message with action `RESET`
was delivered, under a configuration whose action is `STOP`, the command of the next cycle
carries a pad message with action `STOP`. -/
theorem pad_echo_carries_configured_action :
    resetPad.action = DrivingAction.RESET ∧
    sampleComponent.control_conf_.action = DrivingAction.STOP ∧
    (OnPad sampleComponent resetPad).pad_msg_ = resetPad ∧
    (OnPad sampleComponent resetPad).pad_received_ = true ∧
    (Proc (sampleAgent Status.OK) sampleClock
      (OnPad sampleComponent resetPad)).control_command.bind (fun cmd => cmd.pad_msg) =
      some { action? := some DrivingAction.STOP } ∧
    (Proc (sampleAgent Status.OK) sampleClock
      (OnPad sampleComponent resetPad)).self.pad_received_ = false := by
  decide

/-- C17. In every command produced by `Proc`, `total_time_ms` is `(end − start) × 1000` and
`total_time_exceeded` is true exactly when `total_time_ms` is strictly less than the
configured control period; the command written to the output channel has the same latency
statistics. -/
theorem latency_stats_rule (ag : ControllerAgent A) (clock : CycleClock)
    (s : ControlComponent A) (cmd : ControlCommand)
    (hcmd : (Proc ag clock s).control_command = some cmd) :
    cmd.latency_stats.total_time_ms = (clock.end_timestamp - clock.start_timestamp) * 1000 ∧
    (cmd.latency_stats.total_time_exceeded = true ↔
      cmd.latency_stats.total_time_ms < s.control_conf_.control_period) ∧
    (∀ w, (Proc ag clock s).written = some w → w.latency_stats = cmd.latency_stats) := by
  cases hfin : testFinished clock s
  · obtain ⟨-, -, -, -, -, cmd2, hc, h1, h2, -, -, -, -, hwr⟩ := Proc_runs ag clock s hfin
    rw [hc] at hcmd
    obtain rfl : cmd2 = cmd := Option.some.inj hcmd
    refine ⟨h1, ?_, ?_⟩
    · rw [h2, h1]; simp
    · intro w hw
      have hsend : ∀ (t : ControlComponent A) (x : ℚ) (c v : ControlCommand),
          (SendCmd t x c).2 = some v → v.latency_stats = c.latency_stats := by
        intro t x c v hv
        simp only [SendCmd, FillHeader] at hv
        split_ifs at hv
        rw [← Option.some.inj hv]
      exact hsend _ _ cmd2 w (hwr ▸ hw)
  · rw [(Proc_finished ag clock s hfin).2.2.1] at hcmd
    exact absurd hcmd (by simp)

/-- C17, instance: a cycle of 5 ms under a control period of 10 has `total_time_ms = 5` and
the flag set. -/
theorem latency_stats_rule_witness :
    ∃ cmd, (Proc (sampleAgent Status.OK) sampleClock sampleComponent).control_command = some cmd ∧
      cmd.latency_stats.total_time_ms = 5 ∧ cmd.latency_stats.total_time_exceeded = true := by
  obtain ⟨-, -, -, -, -, cmd, hc, -⟩ :=
    Proc_runs (sampleAgent Status.OK) sampleClock sampleComponent (by decide)
  obtain ⟨h1, h2, -⟩ := latency_stats_rule (sampleAgent Status.OK) sampleClock sampleComponent cmd hc
  have h5 : cmd.latency_stats.total_time_ms = 5 := by
    rw [h1]; simp only [sampleClock]; norm_num
  refine ⟨cmd, hc, h5, h2.2 ?_⟩
  rw [h5]; simp only [sampleComponent, sampleConf]; norm_num

/-- C18 (counterexample). With the chassis in `COMPLETE_MANUAL` and the estop flag clear
after the recomputation, the controller agent is reset and then called: the log holds the
reset followed by one compute call. -/
theorem manual_mode_resets_then_computes :
    noChassisComponent.chassis_.driving_mode = DrivingMode.COMPLETE_MANUAL ∧
    (checkEstop (checkData 0 noChassisComponent {})).self.estop_ = false ∧
    (ProduceControlCommand (sampleAgent Status.OK) 0 noChassisComponent {}).calls =
      [AgentCall.Reset, AgentCall.ComputeControlCommand sampleInput Status.OK sampleOutput] := by
  decide

/-- C18 (amended). In every cycle in which the estop flag is clear after the recomputation:
if the chassis is in `COMPLETE_MANUAL`, the controller agent is reset and then called exactly
once; if it is in any other mode, the controller agent is called exactly once and not
reset. -/
theorem agent_use_when_not_estopped (ag : ControllerAgent A) (now : ℚ)
    (s : ControlComponent A) (cmd : ControlCommand)
    (h : (checkEstop (checkData now s cmd)).self.estop_ = false) :
    (s.chassis_.driving_mode = DrivingMode.COMPLETE_MANUAL →
      ∃ cin st out, (ProduceControlCommand ag now s cmd).calls =
        [AgentCall.Reset, AgentCall.ComputeControlCommand cin st out]) ∧
    (s.chassis_.driving_mode ≠ DrivingMode.COMPLETE_MANUAL →
      ∃ cin st out, (ProduceControlCommand ag now s cmd).calls =
        [AgentCall.ComputeControlCommand cin st out]) := by
  obtain ⟨cin, st, out, -, h2, -⟩ := Produce_running_call ag now s cmd h
  refine ⟨fun hm => ⟨cin, st, out, ?_⟩, fun hm => ⟨cin, st, out, ?_⟩⟩
  · rw [h2, if_pos hm]; rfl
  · rw [h2, if_neg hm]; rfl

/-- C18 (amended), instance: the manual-mode cycle of the counterexample and the same cycle in
automatic mode. -/
theorem agent_use_when_not_estopped_witness :
    (∃ cin st out,
      (ProduceControlCommand (sampleAgent Status.OK) 0 noChassisComponent {}).calls =
        [AgentCall.Reset, AgentCall.ComputeControlCommand cin st out]) ∧
    (∃ cin st out,
      (ProduceControlCommand (sampleAgent Status.OK) 0 sampleComponent {}).calls =
        [AgentCall.ComputeControlCommand cin st out]) :=
  ⟨(agent_use_when_not_estopped (sampleAgent Status.OK) 0 noChassisComponent {}
      (by decide)).1 (by decide),
    (agent_use_when_not_estopped (sampleAgent Status.OK) 0 sampleComponent {}
      (by decide)).2 (by decide)⟩

/-- C19. In every command that `Proc` hands to `SendCmd`, the header status code is the code
of the status returned by `ProduceControlCommand`, and the header status message is the estop
reason if the estop flag is set at the end of the cycle and the message of the returned status
otherwise. -/
theorem header_status_rule (ag : ControllerAgent A) (clock : CycleClock)
    (s : ControlComponent A) (cmd : ControlCommand)
    (hcmd : (Proc ag clock s).control_command = some cmd) :
    cmd.header.status.error_code = (procProduce ag clock s).status.code ∧
    cmd.header.status.msg =
      (if (Proc ag clock s).self.estop_ then (Proc ag clock s).self.estop_reason_
       else (procProduce ag clock s).status.msg) := by
  cases hfin : testFinished clock s
  · obtain ⟨-, -, h3, h4, -, cmd2, hc, -, -, h8, h9, -⟩ := Proc_runs ag clock s hfin
    rw [hc] at hcmd
    obtain rfl : cmd2 = cmd := Option.some.inj hcmd
    exact ⟨h8, by rw [h9, h3, h4]⟩
  · rw [(Proc_finished ag clock s hfin).2.2.1] at hcmd
    exact absurd hcmd (by simp)

/-- C19, instance: under persistent estop with the flag set and the reason "lon controller
failed", a cycle whose checks pass returns OK, and the header carries code OK with the estop
reason as message. -/
theorem header_status_rule_witness :
    (procProduce (sampleAgent Status.OK) sampleClock persistentComponent).status = Status.OK ∧
    ∃ cmd,
      (Proc (sampleAgent Status.OK) sampleClock persistentComponent).control_command = some cmd ∧
      cmd.header.status.error_code = ErrorCode.OK ∧
      cmd.header.status.msg = "lon controller failed" := by
  obtain ⟨-, -, -, -, -, cmd, hc, -⟩ :=
    Proc_runs (sampleAgent Status.OK) sampleClock persistentComponent (by decide)
  obtain ⟨h1, h2⟩ :=
    header_status_rule (sampleAgent Status.OK) sampleClock persistentComponent cmd hc
  have hst : (procProduce (sampleAgent Status.OK) sampleClock persistentComponent).status =
      Status.OK := by decide
  have he : (Proc (sampleAgent Status.OK) sampleClock persistentComponent).self.estop_ = true := by
    decide
  have hr : (Proc (sampleAgent Status.OK) sampleClock persistentComponent).self.estop_reason_ =
      "lon controller failed" := by decide
  refine ⟨hst, cmd, hc, ?_, ?_⟩
  · rw [h1, hst]; rfl
  · rw [h2, he, hr]; rfl

/-- C20 (defect in the code). `Init` registers the trajectory handler on the chassis channel
(line 77): for a configuration with pairwise distinct channel names, the chassis handler and
the trajectory handler are both registered on "chassis" and no handler is registered on the
planning channel. -/
theorem trajectory_handler_on_chassis_channel :
    [channelConf.chassis_channel, channelConf.localization_channel,
      channelConf.planning_channel, channelConf.pad_msg_channel].Nodup ∧
    (Init sampleAgentInit (some channelConf) freshComponent).map (fun r => r.ret) = some true ∧
    (Init sampleAgentInit (some channelConf) freshComponent).map (fun r => r.registered) =
      some
        [{ channel_name := "chassis", handler := Handler.chassis },
         { channel_name := "chassis", handler := Handler.trajectory },
         { channel_name := "localization", handler := Handler.localization },
         { channel_name := "pad", handler := Handler.pad }] ∧
    channelConf.planning_channel = "planning" := by
  decide

end Control
